import Mathlib

/-!
Verification of the gesture and expression recognition engine of the
webjarvis repository.

The embedding below translates the TypeScript classes `HandTracker`,
`FaceTracker` (the expression-extended variant) and `GestureMapper` into
pure Lean functions.  Numbers are modelled as rationals.  Two systematic
translation choices are used, each noted where it applies:

* Euclidean distances are compared against constant thresholds.  Since
  both sides of every such comparison are nonnegative, `sqrt d < c` is
  replaced by the exactly equivalent `d < c^2`, and the state field
  `lastPinchDistance` is stored squared.  The zoom scale
  `lastPinchDistance / currentPinchDistance` is accordingly carried as
  its square; the emission test `|scale - 1| > 0.05` becomes the exact
  equivalent `scaleSq > 1.05^2 or scaleSq < 0.95^2` (the scale is a ratio
  of distances, hence nonnegative).

* Quantities that are irrational functions of the coordinates and that
  no claim depends on are carried as explicit input fields rather than
  recomputed: the finger spread of `calculateFingerSpread` (a sum of four
  square roots, compared with 0.15) and the `atan2`-based roll angle of
  `calculateHeadPose` (clamped to [-30, 30] whatever its value).
  Universally quantified theorems over these fields cover every value the
  source could produce.

Timers (`setTimeout`, `Date.now()`, `performance.now()`) are modelled by
passing the current wall-clock time to each step and storing expiry
timestamps; a boolean flag cleared by a 300 ms timer becomes an
`Option` expiry checked against the current time.
-/

namespace WebJarvis

/-- A normalized 3D landmark point, `{x, y, z}` in the source. -/
structure Point3 where
  x : ℚ
  y : ℚ
  z : ℚ
  deriving Repr, DecidableEq

/-- Squared Euclidean distance between two landmarks.  The source
`calculateDistance` returns the square root of this value; every use
compares it against a nonnegative constant, so the square is compared
against the squared constant instead. -/
def distSq (p1 p2 : Point3) : ℚ :=
  (p1.x - p2.x) ^ 2 + (p1.y - p2.y) ^ 2 + (p1.z - p2.z) ^ 2

/-- The eight gesture classes of `GestureType`. -/
inductive GestureType where
  | idle
  | pinch
  | drag
  | click
  | swipe_left
  | swipe_right
  | point
  | open_palm
  deriving Repr, DecidableEq

namespace HandTracker

/-- The landmarks of one hand observation that `detectGestures` reads
(indices 4, 8, 12, 16, 20, 0, 5 of the 21-point array), together with
the value of `calculateFingerSpread` on the full array.  The spread is a
sum of four Euclidean distances divided by 4 — irrational in the
coordinates — and is only ever compared with 0.15; it is carried as an
input field, universally quantified in the theorems. -/
structure HandLandmarks where
  thumbTip : Point3
  indexTip : Point3
  middleTip : Point3
  ringTip : Point3
  pinkyTip : Point3
  wrist : Point3
  indexMcp : Point3
  fingerSpread : ℚ
  deriving Repr, DecidableEq

/-- Mutable per-recognizer gesture state (`GestureState` in the source).
`lastPinchDistanceSq` stores the square of `lastPinchDistance`;
`clickCooldownUntil` replaces the boolean `clickCooldown` cleared by a
300 ms `setTimeout`: the cooldown is active while `now < expiry`. -/
structure GestureState where
  isPinching : Bool
  isDragging : Bool
  lastPinchDistanceSq : ℚ
  lastPosition : Option (ℚ × ℚ)
  pinchStartPosition : Option (ℚ × ℚ)
  clickCooldownUntil : Option ℚ
  lastZDepth : ℚ
  gestureHistory : List GestureType
  deriving Repr, DecidableEq

/-- The default `gestureState` of the constructor and of
`resetGestureState`. -/
def initialGestureState : GestureState :=
  { isPinching := false
    isDragging := false
    lastPinchDistanceSq := 0
    lastPosition := none
    pinchStartPosition := none
    clickCooldownUntil := none
    lastZDepth := 0
    gestureHistory := [] }

/-- Callback invocations of `HandTrackerCallbacks`, in emission order. -/
inductive HandEvent where
  | airClick (x y : ℚ)
  | airDrag (dx dy : ℚ)
  | pinchZoom (scaleSq : ℚ)
  | gestureChange (g : GestureType)
  | handDetected (isLeft isRight : Bool)
  | landmarksUpdate
  deriving Repr, DecidableEq

/-- Source `PINCH_THRESHOLD = 0.05`. -/
def pinchThreshold : ℚ := 0.05

/-- Source `DRAG_THRESHOLD = 0.02`. -/
def dragThreshold : ℚ := 0.02

/-- Source `CLICK_Z_THRESHOLD = 0.03`. -/
def clickZThreshold : ℚ := 0.03

/-- Source `SWIPE_THRESHOLD = 0.15`. -/
def swipeThreshold : ℚ := 0.15

/-- Source `CLICK_COOLDOWN_MS = 300`. -/
def clickCooldownMs : ℚ := 300

/-- The geometric pinch test `calculateDistance(thumbTip, indexTip) <
PINCH_THRESHOLD`, stated on squares. -/
def pinchDistSq (lm : HandLandmarks) : ℚ := distSq lm.thumbTip lm.indexTip

/-- Palm center: midpoint of wrist and index MCP (x and y components). -/
def palmCenter (lm : HandLandmarks) : ℚ × ℚ :=
  ((lm.wrist.x + lm.indexMcp.x) / 2, (lm.wrist.y + lm.indexMcp.y) / 2)

/-- Zoom emission test `|scale - 1| > 0.05` on the squared scale: for a
nonnegative scale it is equivalent to `scaleSq > 1.05^2 or scaleSq <
0.95^2`. -/
def zoomFires (scaleSq : ℚ) : Prop :=
  scaleSq > (1.05 : ℚ) ^ 2 ∨ scaleSq < (0.95 : ℚ) ^ 2

instance (scaleSq : ℚ) : Decidable (zoomFires scaleSq) := by
  unfold zoomFires; infer_instance

/-- The `---- Pinch Zoom Detection ----` section of `detectGestures`:
pinch start, ongoing-pinch drag and zoom checks, pinch end. -/
def pinchSection (s : GestureState) (lm : HandLandmarks) :
    GestureState × List HandEvent :=
  let pd := pinchDistSq lm
  let palm := palmCenter lm
  if pd < pinchThreshold ^ 2 then
    if s.isPinching = false then
      ({ s with isPinching := true
                lastPinchDistanceSq := pd
                pinchStartPosition := some palm },
       [HandEvent.gestureChange GestureType.pinch])
    else
      let dragPart :
          GestureState × List HandEvent :=
        match s.lastPosition with
        | some last =>
          let dx := palm.1 - last.1
          let dy := palm.2 - last.2
          if |dx| > dragThreshold ∨ |dy| > dragThreshold then
            ({ s with isDragging := true },
             [HandEvent.airDrag (dx * 100) (dy * 100),
              HandEvent.gestureChange GestureType.drag])
          else (s, [])
        | none => (s, [])
      let scaleSq := s.lastPinchDistanceSq / pd
      let zoomEvents :=
        if zoomFires scaleSq then [HandEvent.pinchZoom scaleSq] else []
      ({ dragPart.1 with lastPinchDistanceSq := pd },
       dragPart.2 ++ zoomEvents)
  else
    if s.isPinching then
      ({ s with isPinching := false
                isDragging := false
                pinchStartPosition := none }, [])
    else (s, [])

/-- The `---- Air Click Detection ----` section: evaluated only while not
pinching and not on click cooldown; a forward poke is a decrease of the
index-fingertip depth exceeding `CLICK_Z_THRESHOLD` relative to the
stored `lastZDepth`; `lastZDepth` is updated on every eligible frame. -/
def clickCooldownActive (s : GestureState) (now : ℚ) : Bool :=
  match s.clickCooldownUntil with
  | some e => decide (now < e)
  | none => false

/-- The `---- Air Click Detection ----` body. -/
def clickSection (s : GestureState) (now vw vh : ℚ) (lm : HandLandmarks) :
    GestureState × List HandEvent :=
  if ¬ (pinchDistSq lm < pinchThreshold ^ 2) ∧
      clickCooldownActive s now = false then
    let currentZ := lm.indexTip.z
    let zDelta := s.lastZDepth - currentZ
    if zDelta > clickZThreshold then
      ({ s with clickCooldownUntil := some (now + clickCooldownMs)
                lastZDepth := currentZ },
       [HandEvent.airClick (lm.indexTip.x * vw) (lm.indexTip.y * vh),
        HandEvent.gestureChange GestureType.click])
    else
      ({ s with lastZDepth := currentZ }, [])
  else (s, [])

/-- The `---- Swipe Detection ----` section: only while not pinching and
with a previous palm position recorded. -/
def swipeEvents (s : GestureState) (lm : HandLandmarks) : List HandEvent :=
  if ¬ (pinchDistSq lm < pinchThreshold ^ 2) then
    match s.lastPosition with
    | some last =>
      let dx := (palmCenter lm).1 - last.1
      if dx > swipeThreshold then
        [HandEvent.gestureChange GestureType.swipe_right]
      else if dx < -swipeThreshold then
        [HandEvent.gestureChange GestureType.swipe_left]
      else []
    | none => []
  else []

/-- The `---- Open Palm Detection ----` section: finger spread above
0.15 while not pinching. -/
def palmEvents (lm : HandLandmarks) : List HandEvent :=
  if ¬ (pinchDistSq lm < pinchThreshold ^ 2) ∧ lm.fingerSpread > 0.15 then
    [HandEvent.gestureChange GestureType.open_palm]
  else []

/-- Source `detectPointGesture`: index extended, middle/ring/pinky tips curled
below the index tip. -/
def detectPointGesture (lm : HandLandmarks) : Prop :=
  lm.indexTip.y < lm.indexMcp.y - 0.05 ∧
  lm.middleTip.y > lm.indexTip.y + 0.05 ∧
  lm.ringTip.y > lm.indexTip.y + 0.05 ∧
  lm.pinkyTip.y > lm.indexTip.y + 0.05

instance (lm : HandLandmarks) : Decidable (detectPointGesture lm) := by
  unfold detectPointGesture; infer_instance

/-- The `---- Point Detection ----` section. -/
def pointEvents (lm : HandLandmarks) : List HandEvent :=
  if detectPointGesture lm ∧ ¬ (pinchDistSq lm < pinchThreshold ^ 2) then
    [HandEvent.gestureChange GestureType.point]
  else []

/-- Source `detectGestures`: the per-frame gesture pipeline on the primary hand,
followed by the unconditional `lastPosition` update. -/
def detectGestures (s : GestureState) (now vw vh : ℚ) (lm : HandLandmarks) :
    GestureState × List HandEvent :=
  let p := pinchSection s lm
  let c := clickSection p.1 now vw vh lm
  let ev3 := swipeEvents c.1 lm
  let ev4 := palmEvents lm
  let ev5 := pointEvents lm
  ({ c.1 with lastPosition := some (palmCenter lm) },
   p.2 ++ c.2 ++ ev3 ++ ev4 ++ ev5)

/-- A `HandLandmarkerResult`: the per-frame hand observations and their
raw handedness category names. -/
structure HandResult where
  hands : List HandLandmarks
  handedness : List String
  deriving Repr, DecidableEq

/-- The JavaScript `toLowerCase()` applied to a handedness category
name, written on the character list so that concrete label values
evaluate inside the kernel. -/
def toLowerCase (s : String) : String := ⟨s.data.map Char.toLower⟩

/-- The handedness loop of `processResults`: the raw label is mirrored
for a front camera, so a raw `left` sets the right-hand flag and a raw
`right` sets the left-hand flag.  Returns `(isLeftHand, isRightHand)`. -/
def handednessFlags (labels : List String) : Bool × Bool :=
  labels.foldl
    (fun acc l =>
      let acc1 := if toLowerCase l = ("left") then (acc.1, true) else acc
      if toLowerCase l = ("right") then (true, acc1.2) else acc1)
    (false, false)

/-- Source `processResults`: handedness flags, visualization passthrough, then
either the no-hands reset (which fires `idle`) or gesture detection on
the first hand. -/
def processResults (s : GestureState) (now vw vh : ℚ) (res : HandResult) :
    GestureState × List HandEvent :=
  let flags := handednessFlags res.handedness
  let ev0 := [HandEvent.handDetected flags.1 flags.2]
  match res.hands with
  | [] =>
    (initialGestureState, ev0 ++ [HandEvent.gestureChange GestureType.idle])
  | lm :: _ =>
    let d := detectGestures s now vw vh lm
    (d.1, ev0 ++ [HandEvent.landmarksUpdate] ++ d.2)

/-- Whole-tracker state: the initialization guard flags, the duplicate
frame guard `lastVideoTime` and the gesture state. -/
structure TrackerState where
  initialized : Bool
  lastVideoTime : ℚ
  gesture : GestureState
  deriving Repr, DecidableEq

/-- Source `processVideoFrame`: no-op unless initialized; no-op when the video
timestamp equals `lastVideoTime`; otherwise records the timestamp and
processes the detection result. -/
def processVideoFrame (s : TrackerState) (currentTime now vw vh : ℚ)
    (res : HandResult) : TrackerState × List HandEvent :=
  if s.initialized = false then (s, [])
  else if currentTime = s.lastVideoTime then (s, [])
  else
    let d := processResults s.gesture now vw vh res
    ({ s with lastVideoTime := currentTime, gesture := d.1 }, d.2)

end HandTracker

namespace FaceTracker

/-- The smoothed expression vector `FaceExpressionData`. -/
structure FaceExpressionData where
  leftEyeOpenness : ℚ
  rightEyeOpenness : ℚ
  leftBrowY : ℚ
  rightBrowY : ℚ
  headAngleX : ℚ
  headAngleY : ℚ
  headAngleZ : ℚ
  mouthOpenness : ℚ
  mouthSmile : ℚ
  faceX : ℚ
  faceY : ℚ
  faceDetected : Bool
  deriving Repr, DecidableEq

/-- The landmarks of one face observation that the expression-extended
`FaceTracker` reads (indices 13, 14, 61, 291, 159, 145, 33, 133, 386,
374, 263, 362, 105, 334, 1, 10, 152, 234, 454 of the 478-point array),
together with the value of `atan2(eyeDeltaY, eyeDeltaX) * 180 / pi` used
for the roll angle.  That angle is transcendental in the coordinates and
is clamped to [-30, 30] whatever its value, so it is carried as an input
field, universally quantified in the theorems. -/
structure FaceLandmarks where
  upperLipTop : Point3
  lowerLipBottom : Point3
  leftMouthCorner : Point3
  rightMouthCorner : Point3
  leftEyeUpper : Point3
  leftEyeLower : Point3
  leftEyeOuter : Point3
  leftEyeInner : Point3
  rightEyeUpper : Point3
  rightEyeLower : Point3
  rightEyeOuter : Point3
  rightEyeInner : Point3
  leftBrowCenter : Point3
  rightBrowCenter : Point3
  noseTip : Point3
  foreheadCenter : Point3
  chinCenter : Point3
  leftCheek : Point3
  rightCheek : Point3
  eyeTiltDeg : ℚ
  deriving Repr, DecidableEq

/-- Speaking-detection state (`SpeakingState` in the source). -/
structure SpeakingState where
  isSpeaking : Bool
  mouthOpenness : ℚ
  speakingStartTime : Option ℚ
  lastMouthOpenness : ℚ
  smoothedOpenness : ℚ
  consecutiveOpenFrames : ℕ
  consecutiveClosedFrames : ℕ
  deriving Repr, DecidableEq

/-- The default `speakingState` of the constructor and of
`resetSpeakingState`. -/
def initialSpeakingState : SpeakingState :=
  { isSpeaking := false
    mouthOpenness := 0
    speakingStartTime := none
    lastMouthOpenness := 0
    smoothedOpenness := 0
    consecutiveOpenFrames := 0
    consecutiveClosedFrames := 0 }

/-- Callback invocations of `FaceTrackerCallbacks`, in emission order. -/
inductive FaceEvent where
  | speakingStart
  | speakingEnd
  | mouthOpennessChange (openness : ℚ)
  | faceDetected (detected : Bool)
  | landmarksUpdate
  | expressionUpdate (e : FaceExpressionData)
  deriving Repr, DecidableEq

/-- Source `MOUTH_OPEN_THRESHOLD = 0.02`. -/
def mouthOpenThreshold : ℚ := 0.02

/-- Source `SPEAKING_FRAMES_THRESHOLD = 3`. -/
def speakingFramesThreshold : ℕ := 3

/-- Source `SMOOTHING_FACTOR = 0.3`. -/
def smoothingFactor : ℚ := 0.3

/-- Source `EXPRESSION_SMOOTHING = 0.4`. -/
def expressionSmoothing : ℚ := 0.4

/-- Source `EYE_OPEN_RATIO_MIN = 0.15` (the uppercase source name is renamed to
avoid clashing with the identifier conventions of this development). -/
def eyeOpenRatioMin : ℚ := 0.15

/-- Source `EYE_OPEN_RATIO_MAX = 0.35`. -/
def eyeOpenRatioMax : ℚ := 0.35

/-- Vertical lip gap `|lowerLip.y - upperLip.y|`. -/
def mouthHeight (lm : FaceLandmarks) : ℚ :=
  |lm.lowerLipBottom.y - lm.upperLipTop.y|

/-- Mouth width `|rightCorner.x - leftCorner.x|`. -/
def mouthWidth (lm : FaceLandmarks) : ℚ :=
  |lm.rightMouthCorner.x - lm.leftMouthCorner.x|

/-- The width-normalized mouth opening ratio; on a degenerate zero-width
mouth the unnormalized height is substituted
(`mouthWidth > 0 ? mouthHeight / mouthWidth : mouthHeight`). -/
def normalizedOpenness (lm : FaceLandmarks) : ℚ :=
  if mouthWidth lm > 0 then mouthHeight lm / mouthWidth lm else mouthHeight lm

/-- One exponential-smoothing update of the speaking channel:
`smoothed * (1 - 0.3) + normalized * 0.3`. -/
def smoothNext (st : SpeakingState) (lm : FaceLandmarks) : ℚ :=
  st.smoothedOpenness * (1 - smoothingFactor) +
    normalizedOpenness lm * smoothingFactor

/-- Source `detectMouthOpenness`: smooth the mouth-opening ratio, emit the
openness callback, then run the asymmetric speaking hysteresis (3
consecutive open frames to start, 6 consecutive closed frames to stop);
`startSpeaking` records the wall-clock start time and `stopSpeaking`
clears it. -/
def detectMouthOpenness (st : SpeakingState) (now : ℚ) (lm : FaceLandmarks) :
    SpeakingState × List FaceEvent :=
  let sm := smoothNext st lm
  let st1 := { st with smoothedOpenness := sm, mouthOpenness := sm }
  let ev0 := [FaceEvent.mouthOpennessChange sm]
  if sm > mouthOpenThreshold then
    let st2 := { st1 with consecutiveOpenFrames := st1.consecutiveOpenFrames + 1
                          consecutiveClosedFrames := 0 }
    if st2.isSpeaking = false ∧
        speakingFramesThreshold ≤ st2.consecutiveOpenFrames then
      ({ st2 with isSpeaking := true
                  speakingStartTime := some now
                  lastMouthOpenness := sm },
       ev0 ++ [FaceEvent.speakingStart])
    else ({ st2 with lastMouthOpenness := sm }, ev0)
  else
    let st2 := { st1 with consecutiveClosedFrames :=
                            st1.consecutiveClosedFrames + 1
                          consecutiveOpenFrames := 0 }
    if st2.isSpeaking = true ∧
        speakingFramesThreshold * 2 ≤ st2.consecutiveClosedFrames then
      ({ st2 with isSpeaking := false
                  speakingStartTime := none
                  lastMouthOpenness := sm },
       ev0 ++ [FaceEvent.speakingEnd])
    else ({ st2 with lastMouthOpenness := sm }, ev0)

/-- Linear interpolation `a + (b - a) * t`. -/
def lerp (a b t : ℚ) : ℚ := a + (b - a) * t

/-- Source `calculateEyeOpenness`: lid distance over eye width, rescaled so
ratio 0.15 maps to 0 and 0.35 maps to 1, clamped to [0, 1]; a zero-width
eye returns 1. -/
def calculateEyeOpenness (upper lower outer inner : Point3) : ℚ :=
  let eyeHeight := |upper.y - lower.y|
  let eyeWidth := |outer.x - inner.x|
  if eyeWidth = 0 then 1
  else
    let r := eyeHeight / eyeWidth
    let normalized := (r - eyeOpenRatioMin) / (eyeOpenRatioMax - eyeOpenRatioMin)
    max 0 (min 1 normalized)

/-- Source `calculateBrowPosition`: brow-to-eye-center distance minus the 0.045
baseline, divided by 0.02, clamped to [-1, 1]; returns
`(leftBrowY, rightBrowY)`. -/
def calculateBrowPosition (lm : FaceLandmarks) : ℚ × ℚ :=
  let leftEyeCenterY := (lm.leftEyeUpper.y + lm.leftEyeLower.y) / 2
  let rightEyeCenterY := (lm.rightEyeUpper.y + lm.rightEyeLower.y) / 2
  let leftBrowDist := leftEyeCenterY - lm.leftBrowCenter.y
  let rightBrowDist := rightEyeCenterY - lm.rightBrowCenter.y
  let baseDist : ℚ := 0.045
  let leftBrowY := (leftBrowDist - baseDist) / 0.02 * 1
  let rightBrowY := (rightBrowDist - baseDist) / 0.02 * 1
  (max (-1) (min 1 leftBrowY), max (-1) (min 1 rightBrowY))

/-- Source `calculateHeadPose`: yaw from the nose-versus-cheek-midpoint offset
times 100; pitch from the nose-versus-forehead/chin-midpoint offset
times 150; roll from the eye-corner `atan2` in degrees (carried as the
`eyeTiltDeg` input field); all clamped to [-30, 30].  Returns
`(headAngleX, headAngleY, headAngleZ)`. -/
def calculateHeadPose (lm : FaceLandmarks) : ℚ × ℚ × ℚ :=
  let cheekCenterX := (lm.leftCheek.x + lm.rightCheek.x) / 2
  let rawX := (lm.noseTip.x - cheekCenterX) * 100
  let faceCenterY := (lm.foreheadCenter.y + lm.chinCenter.y) / 2
  let rawY := (lm.noseTip.y - faceCenterY) * 150
  let rawZ := lm.eyeTiltDeg
  (max (-30) (min 30 rawX), max (-30) (min 30 rawY), max (-30) (min 30 rawZ))

/-- Source `calculateMouthShape`: openness `min(1, normalizedOpenness * 3)` and
smile `clamp(avgCornerLift * 30, -1, 1)`.  Returns
`(mouthOpenness, mouthSmile)`. -/
def calculateMouthShape (lm : FaceLandmarks) : ℚ × ℚ :=
  let mo := min 1 (normalizedOpenness lm * 3)
  let lipCenterY := (lm.upperLipTop.y + lm.lowerLipBottom.y) / 2
  let leftCornerRelative := lipCenterY - lm.leftMouthCorner.y
  let rightCornerRelative := lipCenterY - lm.rightMouthCorner.y
  let avgCornerLift := (leftCornerRelative + rightCornerRelative) / 2
  (mo, max (-1) (min 1 (avgCornerLift * 30)))

/-- Source `extractExpressionData`: the raw (pre-smoothing) expression vector. -/
def extractExpressionData (lm : FaceLandmarks) : FaceExpressionData :=
  let brows := calculateBrowPosition lm
  let pose := calculateHeadPose lm
  let mouth := calculateMouthShape lm
  { leftEyeOpenness :=
      calculateEyeOpenness lm.leftEyeUpper lm.leftEyeLower lm.leftEyeOuter
        lm.leftEyeInner
    rightEyeOpenness :=
      calculateEyeOpenness lm.rightEyeUpper lm.rightEyeLower lm.rightEyeOuter
        lm.rightEyeInner
    leftBrowY := brows.1
    rightBrowY := brows.2
    headAngleX := pose.1
    headAngleY := pose.2.1
    headAngleZ := pose.2.2
    mouthOpenness := mouth.1
    mouthSmile := mouth.2
    faceX := lm.noseTip.x
    faceY := lm.noseTip.y
    faceDetected := true }

/-- Source `getDefaultExpression`. -/
def defaultExpression : FaceExpressionData :=
  { leftEyeOpenness := 1
    rightEyeOpenness := 1
    leftBrowY := 0
    rightBrowY := 0
    headAngleX := 0
    headAngleY := 0
    headAngleZ := 0
    mouthOpenness := 0
    mouthSmile := 0
    faceX := 0.5
    faceY := 0.5
    faceDetected := false }

/-- Source `smoothExpression`: field-wise lerp with factor 0.4 toward the
current raw vector; `faceDetected` is copied, not smoothed. -/
def smoothExpression (prev current : FaceExpressionData) :
    FaceExpressionData :=
  let t := expressionSmoothing
  { leftEyeOpenness := lerp prev.leftEyeOpenness current.leftEyeOpenness t
    rightEyeOpenness := lerp prev.rightEyeOpenness current.rightEyeOpenness t
    leftBrowY := lerp prev.leftBrowY current.leftBrowY t
    rightBrowY := lerp prev.rightBrowY current.rightBrowY t
    headAngleX := lerp prev.headAngleX current.headAngleX t
    headAngleY := lerp prev.headAngleY current.headAngleY t
    headAngleZ := lerp prev.headAngleZ current.headAngleZ t
    mouthOpenness := lerp prev.mouthOpenness current.mouthOpenness t
    mouthSmile := lerp prev.mouthSmile current.mouthSmile t
    faceX := lerp prev.faceX current.faceX t
    faceY := lerp prev.faceY current.faceY t
    faceDetected := current.faceDetected }

/-- Whole-tracker state of the expression-extended `FaceTracker`. -/
structure TrackerState where
  initialized : Bool
  lastVideoTime : ℚ
  speaking : SpeakingState
  smoothedExpression : FaceExpressionData
  deriving Repr, DecidableEq

/-- Source `handleNoFace`: end speaking if active, reset the speaking state,
and emit the default (face-lost) expression vector. -/
def handleNoFace (s : TrackerState) : TrackerState × List FaceEvent :=
  let endEvents :=
    if s.speaking.isSpeaking then [FaceEvent.speakingEnd] else []
  ({ s with speaking := initialSpeakingState
            smoothedExpression := defaultExpression },
   endEvents ++ [FaceEvent.expressionUpdate defaultExpression])

/-- Source `processResults`: face-detected callback, then either the no-face
branch or landmark passthrough, expression extraction and smoothing,
expression callback, and the legacy mouth-openness pass. -/
def processResults (s : TrackerState) (now : ℚ)
    (res : Option FaceLandmarks) : TrackerState × List FaceEvent :=
  match res with
  | none =>
    let h := handleNoFace s
    (h.1, FaceEvent.faceDetected false :: h.2)
  | some lm =>
    let raw := extractExpressionData lm
    let sm := smoothExpression s.smoothedExpression raw
    let d := detectMouthOpenness s.speaking now lm
    ({ s with speaking := d.1, smoothedExpression := sm },
     [FaceEvent.faceDetected true, FaceEvent.landmarksUpdate,
      FaceEvent.expressionUpdate sm] ++ d.2)

/-- Source `processVideoFrame` of the face tracker: no-op unless initialized;
no-op when the video timestamp equals `lastVideoTime`; otherwise records
the timestamp and processes the detection result. -/
def processVideoFrame (s : TrackerState) (currentTime now : ℚ)
    (res : Option FaceLandmarks) : TrackerState × List FaceEvent :=
  if s.initialized = false then (s, [])
  else if currentTime = s.lastVideoTime then (s, [])
  else
    let d := processResults { s with lastVideoTime := currentTime } now res
    (d.1, d.2)

end FaceTracker

namespace GestureMapper

/-- Source `GestureMapperConfig`. -/
structure Config where
  enabled : Bool
  focusTrackingEnabled : Bool
  gestureReactionsEnabled : Bool
  bodyTiltSensitivity : ℚ
  focusSmoothness : ℚ
  deriving Repr, DecidableEq

/-- Source `DEFAULT_CONFIG` of the gesture mapper. -/
def defaultConfig : Config :=
  { enabled := true
    focusTrackingEnabled := true
    gestureReactionsEnabled := true
    bodyTiltSensitivity := 15
    focusSmoothness := 0.1 }

/-- Live2D controller commands issued by the mapper.  A `setTimeout`
that later restores neutral focus/body is modelled as the explicit
`scheduleNeutralReset` command carrying the delay. -/
inductive Action where
  | setTargetFocus (x y : ℚ)
  | setBodyAngle (x y : ℚ)
  | setFocusFromScreenCoords (x y : ℚ)
  | tap
  | flick
  | setExpression (id : String)
  | scheduleNeutralReset (delayMs : ℚ)
  deriving Repr, DecidableEq

/-- Mapper state: configuration, last reacted gesture, last hand
position, the cooldown registry (`Map` from action name to expiry
timestamp, modelled as an association list whose `set` replaces the
entry) and the listening flag. -/
structure MapperState where
  config : Config
  lastGesture : GestureType
  lastHandPosition : Option (ℚ × ℚ × ℚ)
  gestureCooldown : List (String × ℚ)
  isListening : Bool
  deriving Repr, DecidableEq

/-- A freshly constructed mapper with the default configuration. -/
def initialMapperState : MapperState :=
  { config := defaultConfig
    lastGesture := GestureType.idle
    lastHandPosition := none
    gestureCooldown := []
    isListening := true }

/-- Source `Map.get` on the cooldown registry. -/
def cooldownGet (m : List (String × ℚ)) (k : String) : Option ℚ :=
  (m.find? (fun p => p.1 = k)).map (fun p => p.2)

/-- Source `Map.set` on the cooldown registry (replaces an existing entry). -/
def cooldownSet (m : List (String × ℚ)) (k : String) (v : ℚ) :
    List (String × ℚ) :=
  (k, v) :: m.filter (fun p => p.1 ≠ k)

/-- Source `setCooldown(action, duration)`: stores `Date.now() + duration`. -/
def setCooldown (s : MapperState) (now : ℚ) (action : String)
    (duration : ℚ) : MapperState :=
  { s with gestureCooldown :=
      cooldownSet s.gestureCooldown action (now + duration) }

/-- Source `isOnCooldown(gesture)`: an entry is blocking while
`Date.now() < cooldownEnd`; a missing entry is not blocking. -/
def isOnCooldown (s : MapperState) (now : ℚ) (gesture : String) : Bool :=
  match cooldownGet s.gestureCooldown gesture with
  | none => false
  | some cooldownEnd => decide (now < cooldownEnd)

/-- The string under which `onGestureChange` looks up a cooldown for a
gesture: the gesture name itself, as produced by the recognizer. -/
def gestureName : GestureType → String
  | GestureType.idle => "idle"
  | GestureType.pinch => "pinch"
  | GestureType.drag => "drag"
  | GestureType.click => "click"
  | GestureType.swipe_left => "swipe_left"
  | GestureType.swipe_right => "swipe_right"
  | GestureType.point => "point"
  | GestureType.open_palm => "open_palm"

/-- Source `handleClick`: tap reaction (no cooldown is set here). -/
def handleClick (s : MapperState) : MapperState × List Action :=
  (s, [Action.tap])

/-- Source `handlePinch`: surprised expression (no cooldown is set here). -/
def handlePinch (s : MapperState) : MapperState × List Action :=
  (s, [Action.setExpression ("surprised")])

/-- Source `handleDrag`: body tilt is handled in `onAirDrag`; no command. -/
def handleDrag (s : MapperState) : MapperState × List Action :=
  (s, [])

/-- Source `handleSwipeLeft`: look left, tilt left, schedule the 500 ms return
to neutral, and set the cooldown entry under the key `swipe`. -/
def handleSwipeLeft (s : MapperState) (now : ℚ) :
    MapperState × List Action :=
  (setCooldown s now ("swipe") 800,
   [Action.setTargetFocus (-1) 0, Action.setBodyAngle (-20) 0,
    Action.scheduleNeutralReset 500])

/-- Source `handleSwipeRight`: mirror image of `handleSwipeLeft`; the cooldown
entry is likewise stored under the key `swipe`. -/
def handleSwipeRight (s : MapperState) (now : ℚ) :
    MapperState × List Action :=
  (setCooldown s now ("swipe") 800,
   [Action.setTargetFocus 1 0, Action.setBodyAngle 20 0,
    Action.scheduleNeutralReset 500])

/-- Source `handlePoint`: gaze toward the last known hand position, if any. -/
def handlePoint (s : MapperState) : MapperState × List Action :=
  match s.lastHandPosition with
  | some p =>
    (s, [Action.setTargetFocus ((p.1 - 0.5) * 2) ((0.5 - p.2.1) * 2)])
  | none => (s, [])

/-- Source `handleOpenPalm`: wave/flick reaction; cooldown entry stored under
the key `palm`. -/
def handleOpenPalm (s : MapperState) (now : ℚ) :
    MapperState × List Action :=
  (setCooldown s now ("palm") 1000, [Action.flick])

/-- Source `handleIdle`: return gaze and body to neutral and the expression to
default. -/
def handleIdle (s : MapperState) : MapperState × List Action :=
  (s, [Action.setTargetFocus 0 0, Action.setBodyAngle 0 0,
       Action.setExpression ("default")])

/-- Source `onGestureChange`: guards (enabled, reactions enabled, listening,
gesture unchanged, controller ready, cooldown on the gesture name), then
the per-gesture dispatch, then `lastGesture` update. -/
def onGestureChange (s : MapperState) (now : ℚ) (ready : Bool)
    (gesture : GestureType) : MapperState × List Action :=
  if s.config.enabled = false ∨ s.config.gestureReactionsEnabled = false then
    (s, [])
  else if s.isListening = false then (s, [])
  else if gesture = s.lastGesture then (s, [])
  else if ready = false then (s, [])
  else if isOnCooldown s now (gestureName gesture) then (s, [])
  else
    let h :=
      match gesture with
      | GestureType.click => handleClick s
      | GestureType.pinch => handlePinch s
      | GestureType.drag => handleDrag s
      | GestureType.swipe_left => handleSwipeLeft s now
      | GestureType.swipe_right => handleSwipeRight s now
      | GestureType.point => handlePoint s
      | GestureType.open_palm => handleOpenPalm s now
      | GestureType.idle => handleIdle s
    ({ h.1 with lastGesture := gesture }, h.2)

/-- Source `onPinchZoom`: scale above 1.2 sets the surprised expression and a
1000 ms cooldown entry under the key `pinch`; scale below 0.8 reverts to
the default expression; the dead zone in between does nothing.  No
cooldown is consulted in this handler. -/
def onPinchZoom (s : MapperState) (now : ℚ) (ready : Bool) (scale : ℚ) :
    MapperState × List Action :=
  if s.config.enabled = false ∨ s.config.gestureReactionsEnabled = false then
    (s, [])
  else if s.isListening = false then (s, [])
  else if ready = false then (s, [])
  else if scale > 1.2 then
    (setCooldown s now ("pinch") 1000, [Action.setExpression ("surprised")])
  else if scale < 0.8 then
    (s, [Action.setExpression ("default")])
  else (s, [])

end GestureMapper

/-! Iterated frame processing: states reached by feeding a stream of
observations, one per frame, starting from the constructor defaults. -/

namespace FaceTracker

/-- Speaking state after feeding frames `0, …, n-1` of a face-landmark
stream through `detectMouthOpenness`, starting from the default state
(each frame shows a face; `nows` gives the wall-clock time per frame). -/
def speakStateAt (f : ℕ → FaceLandmarks) (nows : ℕ → ℚ) : ℕ → SpeakingState
  | 0 => initialSpeakingState
  | n + 1 => (detectMouthOpenness (speakStateAt f nows n) (nows n) (f n)).1

/-- Whether frame `n` of the stream is an open-mouth frame: its
post-smoothing openness exceeds the threshold. -/
def openAt (f : ℕ → FaceLandmarks) (nows : ℕ → ℚ) (n : ℕ) : Prop :=
  smoothNext (speakStateAt f nows n) (f n) > mouthOpenThreshold

instance (f : ℕ → FaceLandmarks) (nows : ℕ → ℚ) (n : ℕ) :
    Decidable (openAt f nows n) := by
  unfold openAt; infer_instance

/-- Smoothed expression vector after feeding frames `0, …, n-1` of a
face-landmark stream through extraction and smoothing, starting from
the default expression (the face-present path of `processResults`). -/
def smoothedExprAt (f : ℕ → FaceLandmarks) : ℕ → FaceExpressionData
  | 0 => defaultExpression
  | n + 1 => smoothExpression (smoothedExprAt f n) (extractExpressionData (f n))

end FaceTracker

namespace HandTracker

/-- Gesture state after feeding frames `0, …, n-1` of a hand-landmark
stream through `detectGestures`, starting from the default state (each
frame shows a hand; `nows` gives the wall-clock time per frame). -/
def gestureStateAt (f : ℕ → HandLandmarks) (nows : ℕ → ℚ) (vw vh : ℚ) :
    ℕ → GestureState
  | 0 => initialGestureState
  | n + 1 =>
    (detectGestures (gestureStateAt f nows vw vh n) (nows n) vw vh (f n)).1

/-- Events emitted while processing frame `n` of a hand-landmark stream. -/
def handEventsAt (f : ℕ → HandLandmarks) (nows : ℕ → ℚ) (vw vh : ℚ)
    (n : ℕ) : List HandEvent :=
  (detectGestures (gestureStateAt f nows vw vh n) (nows n) vw vh (f n)).2

/-- Whether frame `n` of the stream is geometrically sub-threshold for
pinch. -/
def subThreshold (f : ℕ → HandLandmarks) (n : ℕ) : Prop :=
  pinchDistSq (f n) < pinchThreshold ^ 2

instance (f : ℕ → HandLandmarks) (n : ℕ) :
    Decidable (subThreshold f n) := by
  unfold subThreshold; infer_instance

end HandTracker

end WebJarvis

namespace WebJarvis

open HandTracker FaceTracker GestureMapper

/-- Face-tracker result processing touches only the speaking state and
the smoothed expression: the initialization flag and the recorded video
timestamp pass through unchanged. -/
lemma faceProcessResults_preserves (s : FaceTracker.TrackerState) (now : ℚ)
    (res : Option FaceLandmarks) :
    (FaceTracker.processResults s now res).1.initialized = s.initialized ∧
    (FaceTracker.processResults s now res).1.lastVideoTime =
      s.lastVideoTime := by
  cases res <;>
    simp [FaceTracker.processResults, FaceTracker.handleNoFace]

/-- C1.  A second call to the frame processor with the timestamp of the
frame just processed is a no-op: for both the hand tracker and the face
tracker, it returns the state unchanged and fires zero callbacks. -/
theorem duplicate_timestamp_noop (hs : HandTracker.TrackerState)
    (t now vw vh now2 vw2 vh2 : ℚ) (r r2 : HandResult)
    (fs : FaceTracker.TrackerState) (tf nowf nowf2 : ℚ)
    (fr fr2 : Option FaceLandmarks) :
    HandTracker.processVideoFrame
        (HandTracker.processVideoFrame hs t now vw vh r).1 t now2 vw2 vh2 r2
      = ((HandTracker.processVideoFrame hs t now vw vh r).1, [])
    ∧ FaceTracker.processVideoFrame
        (FaceTracker.processVideoFrame fs tf nowf fr).1 tf nowf2 fr2
      = ((FaceTracker.processVideoFrame fs tf nowf fr).1, []) := by
  constructor
  · by_cases h1 : hs.initialized = false
    · simp [HandTracker.processVideoFrame, h1]
    · by_cases h2 : t = hs.lastVideoTime
      · simp [HandTracker.processVideoFrame, h1, h2]
      · simp [HandTracker.processVideoFrame, h1, h2]
  · by_cases h1 : fs.initialized = false
    · simp [FaceTracker.processVideoFrame, h1]
    · by_cases h2 : tf = fs.lastVideoTime
      · simp [FaceTracker.processVideoFrame, h1, h2]
      · have hp := faceProcessResults_preserves
          { initialized := true, lastVideoTime := tf, speaking := fs.speaking,
            smoothedExpression := fs.smoothedExpression } nowf fr
        simp [FaceTracker.processVideoFrame, h1, h2, hp.2]

/-! Helper lemmas about the hand-gesture pipeline sections. -/

/-- The pinch section leaves the palm-position history, the click
cooldown and the stored fingertip depth untouched, and keeps the pinch
flag equal to the geometric pinch test of the current frame. -/
lemma pinchSection_fields (s : GestureState) (lm : HandLandmarks) :
    (pinchSection s lm).1.lastPosition = s.lastPosition ∧
    (pinchSection s lm).1.clickCooldownUntil = s.clickCooldownUntil ∧
    (pinchSection s lm).1.lastZDepth = s.lastZDepth ∧
    (pinchSection s lm).1.isPinching =
      decide (pinchDistSq lm < pinchThreshold ^ 2) := by
  simp only [pinchSection]
  by_cases hd : pinchDistSq lm < pinchThreshold ^ 2
  · rw [if_pos hd]
    by_cases hp : s.isPinching = false
    · rw [if_pos hp]
      simp [hd]
    · rw [if_neg hp]
      have hp' : s.isPinching = true := by
        cases h : s.isPinching
        · exact absurd h hp
        · rfl
      rcases hl : s.lastPosition with _ | last
      · simp [hl, hd, hp']
      · by_cases hmv : |(palmCenter lm).1 - last.1| > dragThreshold ∨
            |(palmCenter lm).2 - last.2| > dragThreshold
        · simp [hl, if_pos hmv, hd, hp']
        · simp [hl, if_neg hmv, hd, hp']
  · rw [if_neg hd]
    by_cases hp : s.isPinching
    · rw [if_pos hp]
      simp [hd]
    · rw [if_neg hp]
      simp [hd, Bool.eq_false_iff.mpr hp]

/-- The pinch section fires the `pinch` gesture callback exactly on the
sub-threshold frames on which the pinch flag was not yet set. -/
lemma pinchSection_pinch_count (s : GestureState) (lm : HandLandmarks) :
    (pinchSection s lm).2.count
        (HandEvent.gestureChange GestureType.pinch) =
      if pinchDistSq lm < pinchThreshold ^ 2 ∧ s.isPinching = false then 1
      else 0 := by
  simp only [pinchSection]
  by_cases hd : pinchDistSq lm < pinchThreshold ^ 2
  · rw [if_pos hd]
    by_cases hp : s.isPinching = false
    · rw [if_pos hp]
      simp [hd, hp]
    · rw [if_neg hp]
      rcases hl : s.lastPosition with _ | last
      · by_cases hz : zoomFires (s.lastPinchDistanceSq / pinchDistSq lm) <;>
          simp [hl, hz, hd, hp]
      · by_cases hmv : |(palmCenter lm).1 - last.1| > dragThreshold ∨
            |(palmCenter lm).2 - last.2| > dragThreshold
        · by_cases hz : zoomFires (s.lastPinchDistanceSq / pinchDistSq lm) <;>
            simp [hl, if_pos hmv, hz, hd, hp]
        · by_cases hz : zoomFires (s.lastPinchDistanceSq / pinchDistSq lm) <;>
            simp [hl, if_neg hmv, hz, hd, hp]
  · rw [if_neg hd]
    by_cases hp : s.isPinching
    · rw [if_pos hp]
      simp [hd]
    · rw [if_neg hp]
      simp [hd]

/-- The click section leaves the pinch/drag flags, the palm-position
history and the pinch-start position untouched, and never emits a
`pinch` gesture callback. -/
lemma clickSection_fields (s : GestureState) (now vw vh : ℚ)
    (lm : HandLandmarks) :
    (clickSection s now vw vh lm).1.isPinching = s.isPinching ∧
    (clickSection s now vw vh lm).1.isDragging = s.isDragging ∧
    (clickSection s now vw vh lm).1.lastPosition = s.lastPosition ∧
    (clickSection s now vw vh lm).1.pinchStartPosition =
      s.pinchStartPosition ∧
    (clickSection s now vw vh lm).2.count
        (HandEvent.gestureChange GestureType.pinch) = 0 := by
  simp only [clickSection]
  by_cases hc : ¬ (pinchDistSq lm < pinchThreshold ^ 2) ∧
      clickCooldownActive s now = false
  · rw [if_pos hc]
    by_cases hz : s.lastZDepth - lm.indexTip.z > clickZThreshold
    · rw [if_pos hz]
      simp
    · rw [if_neg hz]
      simp
  · rw [if_neg hc]
    simp

/-- Neither the swipe, the open-palm nor the point section emits a
`pinch` gesture callback. -/
lemma lateSections_pinch_count (s : GestureState) (lm : HandLandmarks) :
    (swipeEvents s lm).count (HandEvent.gestureChange GestureType.pinch) = 0 ∧
    (palmEvents lm).count (HandEvent.gestureChange GestureType.pinch) = 0 ∧
    (pointEvents lm).count (HandEvent.gestureChange GestureType.pinch) = 0 := by
  refine ⟨?_, ?_, ?_⟩
  · simp only [swipeEvents]
    by_cases hd : ¬ (pinchDistSq lm < pinchThreshold ^ 2)
    · rcases hl : s.lastPosition with _ | last
      · simp [hl, not_lt.mp hd]
      · by_cases h1 : (palmCenter lm).1 - last.1 > swipeThreshold
        · simp [hl, not_lt.mp hd, if_pos h1]
        · by_cases h2 : (palmCenter lm).1 - last.1 < -swipeThreshold
          · simp [hl, not_lt.mp hd, if_neg h1, if_pos h2]
          · simp [hl, not_lt.mp hd, if_neg h1, if_neg h2]
    · simp [not_le.mpr (not_not.mp hd)]
  · simp only [palmEvents]
    by_cases hd : ¬ (pinchDistSq lm < pinchThreshold ^ 2) ∧
        lm.fingerSpread > 0.15
    · rw [if_pos hd]
      simp
    · rw [if_neg hd]
      simp
  · simp only [pointEvents]
    by_cases hd : detectPointGesture lm ∧
        ¬ (pinchDistSq lm < pinchThreshold ^ 2)
    · rw [if_pos hd]
      simp
    · rw [if_neg hd]
      simp

/-- Source `detectGestures` keeps the pinch flag equal to the current frame's
geometric pinch test. -/
lemma detectGestures_isPinching (s : GestureState) (now vw vh : ℚ)
    (lm : HandLandmarks) :
    ((detectGestures s now vw vh lm).1).isPinching =
      decide (pinchDistSq lm < pinchThreshold ^ 2) := by
  unfold detectGestures
  have h1 := (pinchSection_fields s lm).2.2.2
  have h2 := (clickSection_fields (pinchSection s lm).1 now vw vh lm).1
  simp [h1, h2]

/-- Source `detectGestures` fires the `pinch` gesture callback exactly on the
sub-threshold frames on which the pinch flag was not yet set. -/
lemma detectGestures_pinch_count (s : GestureState) (now vw vh : ℚ)
    (lm : HandLandmarks) :
    ((detectGestures s now vw vh lm).2).count
        (HandEvent.gestureChange GestureType.pinch) =
      if pinchDistSq lm < pinchThreshold ^ 2 ∧ s.isPinching = false then 1
      else 0 := by
  unfold detectGestures
  have hl := lateSections_pinch_count (clickSection (pinchSection s lm).1
    now vw vh lm).1 lm
  have hc := (clickSection_fields (pinchSection s lm).1 now vw vh lm).2.2.2.2
  simp [List.count_append, pinchSection_pinch_count s lm, hc,
    hl.1, hl.2.1, hl.2.2]

/-- Unfolding of the handedness fold: each raw label lowercased to
`left` turns on the right-hand flag and each raw label lowercased to
`right` turns on the left-hand flag. -/
lemma handednessFlags_spec (labels : List String) :
    (handednessFlags labels).1 =
      labels.any (fun l => toLowerCase l == ("right")) ∧
    (handednessFlags labels).2 =
      labels.any (fun l => toLowerCase l == ("left")) := by
  unfold handednessFlags
  suffices h : ∀ a : Bool × Bool,
      labels.foldl
        (fun acc l =>
          let acc1 := if toLowerCase l = ("left") then (acc.1, true) else acc
          if toLowerCase l = ("right") then (true, acc1.2) else acc1) a =
      ((a.1 || labels.any (fun l => toLowerCase l == ("right"))),
       (a.2 || labels.any (fun l => toLowerCase l == ("left")))) by
    rw [h (false, false)]
    simp
  induction labels with
  | nil => intro a; simp
  | cons l rest ih =>
    intro a
    simp only [List.foldl_cons, List.any_cons]
    rw [ih]
    by_cases hl : toLowerCase l = ("left")
    · by_cases hr : toLowerCase l = ("right")
      · exact absurd (hl.symm.trans hr) (by decide)
      · simp [hl, hr, Bool.or_assoc]
    · by_cases hr : toLowerCase l = ("right")
      · simp [hl, hr, Bool.or_assoc]
      · have h1 : (toLowerCase l == ("left")) = false :=
          beq_eq_false_iff_ne.mpr hl
        have h2 : (toLowerCase l == ("right")) = false :=
          beq_eq_false_iff_ne.mpr hr
        simp [hl, hr, h1, h2]

/-- Example landmark values shared by the concrete check theorems. -/
def zeroPoint : Point3 := { x := 0, y := 0, z := 0 }

/-- A hand observation with all tracked points at the origin. -/
def zeroHand : HandLandmarks :=
  { thumbTip := zeroPoint
    indexTip := zeroPoint
    middleTip := zeroPoint
    ringTip := zeroPoint
    pinkyTip := zeroPoint
    wrist := zeroPoint
    indexMcp := zeroPoint
    fingerSpread := 0 }

/-- C3.  On every frame with at least one hand observation, the emitted
`onHandDetected` flags invert the raw handedness labels: the first
callback of the frame carries the inverted flags, a raw `left` label
forces the reported right-hand flag and a raw `right` label forces the
reported left-hand flag. -/
theorem handedness_inversion (s : GestureState) (now vw vh : ℚ)
    (res : HandResult) (hh : res.hands ≠ []) :
    (HandTracker.processResults s now vw vh res).2.head? =
      some (HandEvent.handDetected (handednessFlags res.handedness).1
        (handednessFlags res.handedness).2) ∧
    ((res.handedness.any fun l => toLowerCase l == ("left")) = true →
      (handednessFlags res.handedness).2 = true) ∧
    ((res.handedness.any fun l => toLowerCase l == ("right")) = true →
      (handednessFlags res.handedness).1 = true) := by
  refine ⟨?_, ?_, ?_⟩
  · rcases hr : res.hands with _ | ⟨lm, rest⟩
    · exact absurd hr hh
    · simp [HandTracker.processResults, hr]
  · intro h
    rw [(handednessFlags_spec res.handedness).2]
    exact h
  · intro h
    rw [(handednessFlags_spec res.handedness).1]
    exact h

/-- Concrete check for `handedness_inversion`: one hand with the raw
label `Left` is reported as the logical right hand. -/
theorem handedness_inversion_check :
    ({ hands := [zeroHand], handedness := [("Left")] } : HandResult).hands
        ≠ [] ∧
    (HandTracker.processResults initialGestureState 0 100 100
        { hands := [zeroHand], handedness := [("Left")] }).2.head? =
      some (HandEvent.handDetected false true) := by
  refine ⟨by simp, ?_⟩
  have h := (handedness_inversion initialGestureState 0 100 100
      { hands := [zeroHand], handedness := [("Left")] } (by simp)).1
  rw [h]
  decide

/-- C4.  Along any stream of hand frames, the `pinch` gesture callback
fires exactly once per continuous run of frames whose thumb-to-index
distance is below the 0.05 threshold — on the first frame of the run —
and the pinch flag stays set exactly until a frame at or above the
threshold. -/
theorem pinch_fires_once_per_run (f : ℕ → HandLandmarks) (nows : ℕ → ℚ)
    (vw vh : ℚ) (n : ℕ) :
    ((handEventsAt f nows vw vh n).count
        (HandEvent.gestureChange GestureType.pinch) =
      if subThreshold f n ∧ (n = 0 ∨ ¬ subThreshold f (n - 1)) then 1
      else 0) ∧
    ((gestureStateAt f nows vw vh (n + 1)).isPinching = true ↔
      subThreshold f n) := by
  have hstate : ∀ m : ℕ,
      (gestureStateAt f nows vw vh (m + 1)).isPinching =
        decide (subThreshold f m) := by
    intro m
    exact detectGestures_isPinching (gestureStateAt f nows vw vh m)
      (nows m) vw vh (f m)
  constructor
  · unfold handEventsAt
    rw [detectGestures_pinch_count]
    cases n with
    | zero => simp [gestureStateAt, initialGestureState, subThreshold]
    | succ m =>
      rw [hstate m]
      by_cases h : subThreshold f m
      · simp [h, subThreshold]
      · simp [h, subThreshold]
  · rw [hstate n]
    simp [subThreshold]

/-- During an ongoing pinch, a palm displacement beyond the drag
threshold on either axis sets the drag flag and emits the drag-delta
callback scaled by 100 followed by the `drag` gesture callback. -/
lemma pinchSection_ongoing_drag (s : GestureState) (lm : HandLandmarks)
    (p : ℚ × ℚ) (hpin : s.isPinching = true) (hlast : s.lastPosition = some p)
    (hsub : pinchDistSq lm < pinchThreshold ^ 2)
    (hmv : |(palmCenter lm).1 - p.1| > dragThreshold ∨
           |(palmCenter lm).2 - p.2| > dragThreshold) :
    (pinchSection s lm).1.isDragging = true ∧
    (pinchSection s lm).2 =
      [HandEvent.airDrag (((palmCenter lm).1 - p.1) * 100)
          (((palmCenter lm).2 - p.2) * 100),
       HandEvent.gestureChange GestureType.drag] ++
      (if zoomFires (s.lastPinchDistanceSq / pinchDistSq lm) then
        [HandEvent.pinchZoom (s.lastPinchDistanceSq / pinchDistSq lm)]
      else []) := by
  simp only [pinchSection]
  rw [if_pos hsub, if_neg (by simp [hpin])]
  simp [hlast, if_pos hmv]

/-- C9.  While a pinch is sustained (pinch flag set, palm position
recorded, current frame still sub-threshold), a palm displacement beyond
0.02 on either axis makes the recognizer enter drag and fire the
`onAirDrag` callback with deltas equal to 100 times the raw
displacement, together with the `drag` gesture callback. -/
theorem sustained_pinch_drag (s : GestureState) (now vw vh : ℚ)
    (lm : HandLandmarks) (p : ℚ × ℚ)
    (hpin : s.isPinching = true) (hlast : s.lastPosition = some p)
    (hsub : pinchDistSq lm < pinchThreshold ^ 2)
    (hmv : |(palmCenter lm).1 - p.1| > dragThreshold ∨
           |(palmCenter lm).2 - p.2| > dragThreshold) :
    (detectGestures s now vw vh lm).1.isDragging = true ∧
    HandEvent.airDrag (((palmCenter lm).1 - p.1) * 100)
        (((palmCenter lm).2 - p.2) * 100) ∈
      (detectGestures s now vw vh lm).2 ∧
    HandEvent.gestureChange GestureType.drag ∈
      (detectGestures s now vw vh lm).2 := by
  have hd := pinchSection_ongoing_drag s lm p hpin hlast hsub hmv
  have hc := (clickSection_fields (pinchSection s lm).1 now vw vh lm).2.1
  unfold detectGestures
  refine ⟨?_, ?_, ?_⟩
  · simp [hc, hd.1]
  · simp [hd.2]
  · simp [hd.2]

/-- A hand observation pinching with thumb-to-index distance exactly
0.03 and palm center at the origin. -/
def pinchHandA : HandLandmarks :=
  { thumbTip := zeroPoint
    indexTip := { x := 0.03, y := 0, z := 0 }
    middleTip := zeroPoint
    ringTip := zeroPoint
    pinkyTip := zeroPoint
    wrist := zeroPoint
    indexMcp := zeroPoint
    fingerSpread := 0 }

/-- The same pinching hand one frame later, displaced by 0.04 along x. -/
def pinchHandB : HandLandmarks :=
  { thumbTip := { x := 0.04, y := 0, z := 0 }
    indexTip := { x := 0.07, y := 0, z := 0 }
    middleTip := zeroPoint
    ringTip := zeroPoint
    pinkyTip := zeroPoint
    wrist := { x := 0.04, y := 0, z := 0 }
    indexMcp := { x := 0.04, y := 0, z := 0 }
    fingerSpread := 0 }

/-- The state reached after the pinch-start frame `pinchHandA`. -/
def pinchStateA : GestureState :=
  { isPinching := true
    isDragging := false
    lastPinchDistanceSq := 0.0009
    lastPosition := some (0, 0)
    pinchStartPosition := some (0, 0)
    clickCooldownUntil := none
    lastZDepth := 0
    gestureHistory := [] }

/-- Concrete check for `sustained_pinch_drag`: a pinch at distance 0.03
fires the `pinch` callback, and a palm displacement of 0.04 on the next
frame fires `onAirDrag` with deltas scaled by 100, here `(4, 0)`. -/
theorem sustained_pinch_drag_check :
    HandEvent.gestureChange GestureType.pinch ∈
      (detectGestures initialGestureState 0 100 100 pinchHandA).2 ∧
    HandEvent.airDrag 4 0 ∈
      (detectGestures (detectGestures initialGestureState 0 100 100
          pinchHandA).1 1 100 100 pinchHandB).2 ∧
    (detectGestures (detectGestures initialGestureState 0 100 100
        pinchHandA).1 1 100 100 pinchHandB).1.isDragging = true := by
  have hA : detectGestures initialGestureState 0 100 100 pinchHandA =
      (pinchStateA, [HandEvent.gestureChange GestureType.pinch]) := by
    norm_num [detectGestures, pinchSection, clickSection, clickCooldownActive,
      swipeEvents, palmEvents, pointEvents, detectPointGesture, zoomFires,
      pinchDistSq, distSq, palmCenter, initialGestureState, pinchStateA,
      pinchThreshold, dragThreshold, clickZThreshold, swipeThreshold,
      pinchHandA, zeroPoint]
  have h := sustained_pinch_drag pinchStateA 1 100 100 pinchHandB (0, 0)
    rfl rfl
    (by norm_num [pinchDistSq, distSq, pinchHandB, pinchThreshold])
    (Or.inl (by
      rw [show (palmCenter pinchHandB).1 - ((0 : ℚ), (0 : ℚ)).1 = 1 / 25 by
        norm_num [palmCenter, pinchHandB]]
      rw [abs_of_nonneg (by norm_num : (0 : ℚ) ≤ 1 / 25)]
      norm_num [dragThreshold]))
  have e1 : ((palmCenter pinchHandB).1 - ((0 : ℚ), (0 : ℚ)).1) * 100 =
      (4 : ℚ) := by norm_num [palmCenter, pinchHandB]
  have e2 : ((palmCenter pinchHandB).2 - ((0 : ℚ), (0 : ℚ)).2) * 100 =
      (0 : ℚ) := by norm_num [palmCenter, pinchHandB]
  rw [e1, e2] at h
  rw [hA]
  exact ⟨by simp, h.2.1, h.1⟩

/-- When the current frame is pinching or the click cooldown is active,
the click section is skipped entirely. -/
lemma clickSection_skip (s : GestureState) (now vw vh : ℚ)
    (lm : HandLandmarks)
    (h : pinchDistSq lm < pinchThreshold ^ 2 ∨
         clickCooldownActive s now = true) :
    clickSection s now vw vh lm = (s, []) := by
  simp only [clickSection]
  rw [if_neg]
  intro hc
  rcases h with h | h
  · exact hc.1 h
  · rw [hc.2] at h
    exact Bool.false_ne_true h

/-- On an eligible frame the click section updates the depth baseline to
the current fingertip depth and fires the click exactly when the stored
baseline exceeds the current depth by more than the threshold. -/
lemma clickSection_eligible (s : GestureState) (now vw vh : ℚ)
    (lm : HandLandmarks)
    (h1 : ¬ (pinchDistSq lm < pinchThreshold ^ 2))
    (h2 : clickCooldownActive s now = false) :
    (clickSection s now vw vh lm).1.lastZDepth = lm.indexTip.z ∧
    ((HandEvent.airClick (lm.indexTip.x * vw) (lm.indexTip.y * vh) ∈
        (clickSection s now vw vh lm).2) ↔
      s.lastZDepth - lm.indexTip.z > clickZThreshold) := by
  simp only [clickSection]
  rw [if_pos (And.intro h1 h2)]
  by_cases hz : s.lastZDepth - lm.indexTip.z > clickZThreshold
  · rw [if_pos hz]
    simp [hz]
  · rw [if_neg hz]
    simp [hz]

/-- The pinch section never emits an `airClick` callback. -/
lemma pinchSection_no_airClick (s : GestureState) (lm : HandLandmarks)
    (x y : ℚ) :
    HandEvent.airClick x y ∉ (pinchSection s lm).2 := by
  simp only [pinchSection]
  by_cases hd : pinchDistSq lm < pinchThreshold ^ 2
  · rw [if_pos hd]
    by_cases hp : s.isPinching = false
    · rw [if_pos hp]
      simp
    · rw [if_neg hp]
      rcases hl : s.lastPosition with _ | last
      · by_cases hz : zoomFires (s.lastPinchDistanceSq / pinchDistSq lm) <;>
          simp [hl, hz]
      · by_cases hmv : |(palmCenter lm).1 - last.1| > dragThreshold ∨
            |(palmCenter lm).2 - last.2| > dragThreshold
        · by_cases hz : zoomFires (s.lastPinchDistanceSq / pinchDistSq lm) <;>
            simp [hl, if_pos hmv, hz]
        · by_cases hz : zoomFires (s.lastPinchDistanceSq / pinchDistSq lm) <;>
            simp [hl, if_neg hmv, hz]
  · rw [if_neg hd]
    by_cases hp : s.isPinching
    · rw [if_pos hp]
      simp
    · rw [if_neg hp]
      simp

/-- The swipe, open-palm and point sections never emit an `airClick`
callback. -/
lemma lateSections_no_airClick (s : GestureState) (lm : HandLandmarks)
    (x y : ℚ) :
    HandEvent.airClick x y ∉ swipeEvents s lm ∧
    HandEvent.airClick x y ∉ palmEvents lm ∧
    HandEvent.airClick x y ∉ pointEvents lm := by
  refine ⟨?_, ?_, ?_⟩
  · simp only [swipeEvents]
    by_cases hd : ¬ (pinchDistSq lm < pinchThreshold ^ 2)
    · rcases hl : s.lastPosition with _ | last
      · simp [hl, not_lt.mp hd]
      · by_cases h1 : (palmCenter lm).1 - last.1 > swipeThreshold
        · simp [hl, not_lt.mp hd, if_pos h1]
        · by_cases h2 : (palmCenter lm).1 - last.1 < -swipeThreshold
          · simp [hl, not_lt.mp hd, if_neg h1, if_pos h2]
          · simp [hl, not_lt.mp hd, if_neg h1, if_neg h2]
    · simp [not_le.mpr (not_not.mp hd)]
  · simp only [palmEvents]
    by_cases hd : ¬ (pinchDistSq lm < pinchThreshold ^ 2) ∧
        lm.fingerSpread > 0.15
    · rw [if_pos hd]
      simp
    · rw [if_neg hd]
      simp
  · simp only [pointEvents]
    by_cases hd : detectPointGesture lm ∧
        ¬ (pinchDistSq lm < pinchThreshold ^ 2)
    · rw [if_pos hd]
      simp
    · rw [if_neg hd]
      simp

/-- Source `airClick` callbacks of a frame come exactly from the click
section. -/
lemma detectGestures_airClick_iff (s : GestureState) (now vw vh : ℚ)
    (lm : HandLandmarks) (x y : ℚ) :
    (HandEvent.airClick x y ∈ (detectGestures s now vw vh lm).2) ↔
    HandEvent.airClick x y ∈
      (clickSection (pinchSection s lm).1 now vw vh lm).2 := by
  have h1 := pinchSection_no_airClick s lm x y
  have h2 := lateSections_no_airClick
    (clickSection (pinchSection s lm).1 now vw vh lm).1 lm x y
  unfold detectGestures
  simp [List.mem_append, h1, h2.1, h2.2.1, h2.2.2]

/-- C10.  The depth baseline `lastZDepth` is frozen on every frame on
which the hand is pinching or the click cooldown is active, and on an
eligible frame the forward-poke test compares the current fingertip
depth against that frozen baseline — so the 0.03 threshold can be met by
depth change accumulated across many frames — after which the baseline
is set to the current depth. -/
theorem lastZDepth_gating (s : GestureState) (now vw vh : ℚ)
    (lm : HandLandmarks) :
    ((pinchDistSq lm < pinchThreshold ^ 2 ∨
        clickCooldownActive s now = true) →
      (detectGestures s now vw vh lm).1.lastZDepth = s.lastZDepth) ∧
    (¬ (pinchDistSq lm < pinchThreshold ^ 2) →
      clickCooldownActive s now = false →
      ((detectGestures s now vw vh lm).1.lastZDepth = lm.indexTip.z ∧
       ((HandEvent.airClick (lm.indexTip.x * vw) (lm.indexTip.y * vh) ∈
           (detectGestures s now vw vh lm).2) ↔
         s.lastZDepth - lm.indexTip.z > clickZThreshold))) := by
  have hpf := pinchSection_fields s lm
  have hcool : clickCooldownActive (pinchSection s lm).1 now =
      clickCooldownActive s now := by
    unfold clickCooldownActive
    rw [hpf.2.1]
  constructor
  · intro h
    have hskip := clickSection_skip (pinchSection s lm).1 now vw vh lm
      (by rw [hcool]; exact h)
    unfold detectGestures
    simp [hskip, hpf.2.2.1]
  · intro h1 h2
    have hel := clickSection_eligible (pinchSection s lm).1 now vw vh lm h1
      (by rw [hcool]; exact h2)
    constructor
    · unfold detectGestures
      simp [hel.1]
    · rw [detectGestures_airClick_iff, hel.2, hpf.2.2.1]

/-- A non-pinching hand with the index fingertip at depth 0.1. -/
def pokeHandFar : HandLandmarks :=
  { thumbTip := zeroPoint
    indexTip := { x := 0.1, y := 0, z := 0.1 }
    middleTip := zeroPoint
    ringTip := zeroPoint
    pinkyTip := zeroPoint
    wrist := zeroPoint
    indexMcp := zeroPoint
    fingerSpread := 0 }

/-- A pinching hand whose fingertip depth drifts to 0.06. -/
def pokeHandPinch : HandLandmarks :=
  { thumbTip := { x := 0, y := 0, z := 0.06 }
    indexTip := { x := 0.01, y := 0, z := 0.06 }
    middleTip := zeroPoint
    ringTip := zeroPoint
    pinkyTip := zeroPoint
    wrist := zeroPoint
    indexMcp := zeroPoint
    fingerSpread := 0 }

/-- A non-pinching hand with the index fingertip at depth 0.06. -/
def pokeHandNear : HandLandmarks :=
  { thumbTip := zeroPoint
    indexTip := { x := 0.1, y := 0, z := 0.06 }
    middleTip := zeroPoint
    ringTip := zeroPoint
    pinkyTip := zeroPoint
    wrist := zeroPoint
    indexMcp := zeroPoint
    fingerSpread := 0 }

/-- State after the baseline frame (depth 0.1) and two pinching frames
during which the fingertip drifts forward to depth 0.06. -/
def pokeAccumState : GestureState :=
  (detectGestures (detectGestures (detectGestures initialGestureState
    0 100 100 pokeHandFar).1 1 100 100 pokeHandPinch).1 2 100 100
    pokeHandPinch).1

/-- State after the baseline frame of the accumulation scenario. -/
def pokeState1 : GestureState :=
  { isPinching := false
    isDragging := false
    lastPinchDistanceSq := 0
    lastPosition := some (0, 0)
    pinchStartPosition := none
    clickCooldownUntil := none
    lastZDepth := 0.1
    gestureHistory := [] }

/-- State after the first pinching frame of the accumulation scenario. -/
def pokeState2 : GestureState :=
  { isPinching := true
    isDragging := false
    lastPinchDistanceSq := 0.0001
    lastPosition := some (0, 0)
    pinchStartPosition := some (0, 0)
    clickCooldownUntil := none
    lastZDepth := 0.1
    gestureHistory := [] }

/-- The explicit value of `pokeAccumState`: the baseline depth 0.1 is
still frozen after the two pinching frames. -/
def pokeStateExpected : GestureState :=
  { isPinching := true
    isDragging := false
    lastPinchDistanceSq := 0.0001
    lastPosition := some (0, 0)
    pinchStartPosition := some (0, 0)
    clickCooldownUntil := none
    lastZDepth := 0.1
    gestureHistory := [] }

/-- Evaluation of the three accumulation frames. -/
lemma pokeAccumState_eval : pokeAccumState = pokeStateExpected := by
  have h1 : detectGestures initialGestureState 0 100 100 pokeHandFar =
      (pokeState1, []) := by
    norm_num [detectGestures, pinchSection, clickSection, clickCooldownActive,
      swipeEvents, palmEvents, pointEvents, detectPointGesture, zoomFires,
      pinchDistSq, distSq, palmCenter, initialGestureState, pinchThreshold,
      dragThreshold, clickZThreshold, swipeThreshold, pokeHandFar, zeroPoint,
      pokeState1]
  have h2 : detectGestures pokeState1 1 100 100 pokeHandPinch =
      (pokeState2, [HandEvent.gestureChange GestureType.pinch]) := by
    norm_num [detectGestures, pinchSection, clickSection, clickCooldownActive,
      swipeEvents, palmEvents, pointEvents, detectPointGesture, zoomFires,
      pinchDistSq, distSq, palmCenter, pinchThreshold, dragThreshold,
      clickZThreshold, swipeThreshold, pokeHandPinch, zeroPoint, pokeState1,
      pokeState2]
  have h3 : detectGestures pokeState2 2 100 100 pokeHandPinch =
      (pokeStateExpected, []) := by
    norm_num [detectGestures, pinchSection, clickSection, clickCooldownActive,
      swipeEvents, palmEvents, pointEvents, detectPointGesture, zoomFires,
      pinchDistSq, distSq, palmCenter, pinchThreshold, dragThreshold,
      clickZThreshold, swipeThreshold, pokeHandPinch, zeroPoint, pokeState2,
      pokeStateExpected]
  simp only [pokeAccumState, h1, h2, h3]

/-- Concrete check for `lastZDepth_gating`: after a pinch freezes the
baseline at 0.1, the first eligible frame at depth 0.06 fires a click
from depth change accumulated across the pinch, although the depth did
not decrease on that frame itself. -/
theorem lastZDepth_gating_check :
    pokeAccumState.lastZDepth = 0.1 ∧
    HandEvent.airClick 10 0 ∈
      (detectGestures pokeAccumState 3 100 100 pokeHandNear).2 := by
  rw [pokeAccumState_eval]
  have h := (lastZDepth_gating pokeStateExpected 3 100 100 pokeHandNear).2
    (by norm_num [pinchDistSq, distSq, pokeHandNear, pinchThreshold,
      zeroPoint])
    (by norm_num [clickCooldownActive, pokeStateExpected])
  have hm := h.2.mpr (by norm_num [pokeStateExpected, pokeHandNear,
    clickZThreshold])
  have e1 : pokeHandNear.indexTip.x * (100 : ℚ) = 10 := by
    norm_num [pokeHandNear]
  have e2 : pokeHandNear.indexTip.y * (100 : ℚ) = 0 := by
    norm_num [pokeHandNear]
  rw [e1, e2] at hm
  exact ⟨by norm_num [pokeStateExpected], hm⟩

/-- An empty hand-landmark detection result. -/
def emptyHandResult : HandResult := { hands := [], handedness := [] }

/-- C6 (amended).  On every processed frame with zero hand observations
the recognizer resets its gesture state to the defaults and fires the
`idle` gesture callback — on that frame, whether or not the previous
frame already had zero hands; deduplication of repeated `idle` events
happens downstream in the gesture mapper, not in the recognizer. -/
theorem idle_fired_each_empty_frame (s : GestureState) (now vw vh : ℚ)
    (res : HandResult) (h : res.hands = []) :
    (HandTracker.processResults s now vw vh res).1 = initialGestureState ∧
    ((HandTracker.processResults s now vw vh res).2).count
        (HandEvent.gestureChange GestureType.idle) = 1 := by
  simp [HandTracker.processResults, h]

/-- Concrete check for `idle_fired_each_empty_frame` on an empty frame. -/
theorem idle_fired_each_empty_frame_check :
    (HandTracker.processResults initialGestureState 0 100 100
        emptyHandResult).1 = initialGestureState ∧
    ((HandTracker.processResults initialGestureState 0 100 100
        emptyHandResult).2).count
        (HandEvent.gestureChange GestureType.idle) = 1 :=
  idle_fired_each_empty_frame initialGestureState 0 100 100 emptyHandResult
    rfl

/-- Counterexample to C6 as stated: after a first zero-hand frame has
already reset the recognizer (the transition into `no hands`), a second
consecutive zero-hand frame — not a transition — still fires one more
`idle` gesture callback, so `idle` is emitted on every zero-hand frame
rather than exactly once per transition. -/
theorem idle_refires_without_transition_cx :
    ((HandTracker.processVideoFrame
        { initialized := true, lastVideoTime := -1,
          gesture := initialGestureState } 1 1 100 100
        emptyHandResult).2).count
        (HandEvent.gestureChange GestureType.idle) = 1 ∧
    ((HandTracker.processVideoFrame
        (HandTracker.processVideoFrame
          { initialized := true, lastVideoTime := -1,
            gesture := initialGestureState } 1 1 100 100
          emptyHandResult).1 2 2 100 100 emptyHandResult).2).count
        (HandEvent.gestureChange GestureType.idle) = 1 := by
  have h1 : HandTracker.processVideoFrame
      { initialized := true, lastVideoTime := -1,
        gesture := initialGestureState } 1 1 100 100 emptyHandResult =
      ({ initialized := true, lastVideoTime := 1,
         gesture := initialGestureState },
       [HandEvent.handDetected false false,
        HandEvent.gestureChange GestureType.idle]) := by
    norm_num [HandTracker.processVideoFrame, HandTracker.processResults,
      emptyHandResult, handednessFlags]
  have h2 : HandTracker.processVideoFrame
      ({ initialized := true, lastVideoTime := 1,
         gesture := initialGestureState } : HandTracker.TrackerState)
      2 2 100 100 emptyHandResult =
      ({ initialized := true, lastVideoTime := 2,
         gesture := initialGestureState },
       [HandEvent.handDetected false false,
        HandEvent.gestureChange GestureType.idle]) := by
    norm_num [HandTracker.processVideoFrame, HandTracker.processResults,
      emptyHandResult, handednessFlags]
  simp only [h1, h2]
  refine ⟨?_, ?_⟩ <;> decide

/-- C7 (code bug).  The swipe handlers record an 800 ms cooldown under
the registry key `swipe`, but `onGestureChange` consults the registry
under the gesture name (`swipe_left` / `swipe_right`), so the recorded
cooldown is never read: a swipe-left reaction at time 0 stores the
`swipe` entry, and a swipe-right arriving 100 ms later — well inside the
claimed shared 800 ms window — still fires its full reaction. -/
theorem swipe_cooldown_not_consulted :
    (GestureMapper.onGestureChange initialMapperState 0 true
        GestureType.swipe_left).2 =
      [Action.setTargetFocus (-1) 0, Action.setBodyAngle (-20) 0,
       Action.scheduleNeutralReset 500] ∧
    cooldownGet (GestureMapper.onGestureChange initialMapperState 0 true
        GestureType.swipe_left).1.gestureCooldown ("swipe") = some 800 ∧
    (GestureMapper.onGestureChange
        (GestureMapper.onGestureChange initialMapperState 0 true
          GestureType.swipe_left).1 100 true GestureType.swipe_right).2 =
      [Action.setTargetFocus 1 0, Action.setBodyAngle 20 0,
       Action.scheduleNeutralReset 500] := by
  have h1 : GestureMapper.onGestureChange initialMapperState 0 true
      GestureType.swipe_left =
      ({ config := defaultConfig, lastGesture := GestureType.swipe_left,
         lastHandPosition := none, gestureCooldown := [(("swipe"), 800)],
         isListening := true },
       [Action.setTargetFocus (-1) 0, Action.setBodyAngle (-20) 0,
        Action.scheduleNeutralReset 500]) := by
    have g0 : ¬ (GestureType.swipe_left = GestureType.idle) := by decide
    norm_num [GestureMapper.onGestureChange, initialMapperState,
      defaultConfig, isOnCooldown, cooldownGet, gestureName,
      handleSwipeLeft, setCooldown, cooldownSet, g0]
  refine ⟨?_, ?_, ?_⟩
  · rw [h1]
  · rw [h1]
    norm_num [cooldownGet]
  · have g1 : ¬ (GestureType.swipe_right = GestureType.swipe_left) := by
      decide
    have g2 : ¬ (("swipe") = ("swipe_right")) := by decide
    rw [h1]
    norm_num [GestureMapper.onGestureChange, defaultConfig, isOnCooldown,
      cooldownGet, gestureName, handleSwipeRight, setCooldown, cooldownSet,
      g1, g2]

/-- Counterexample to C8 as stated: two consecutive pinch-zoom events
with the scale staying at 1.3 (above 1.2) each emit the `surprised`
expression command — it fires on every such event, not exactly once per
excursion above 1.2. -/
theorem surprised_refires_cx :
    (GestureMapper.onPinchZoom initialMapperState 0 true 1.3).2 =
      [Action.setExpression ("surprised")] ∧
    (GestureMapper.onPinchZoom
        (GestureMapper.onPinchZoom initialMapperState 0 true 1.3).1
        100 true 1.3).2 =
      [Action.setExpression ("surprised")] := by
  have h1 : GestureMapper.onPinchZoom initialMapperState 0 true 1.3 =
      ({ config := defaultConfig, lastGesture := GestureType.idle,
         lastHandPosition := none, gestureCooldown := [(("pinch"), 1000)],
         isListening := true },
       [Action.setExpression ("surprised")]) := by
    norm_num [GestureMapper.onPinchZoom, initialMapperState, defaultConfig,
      setCooldown, cooldownSet]
  refine ⟨?_, ?_⟩
  · rw [h1]
  · rw [h1]
    norm_num [GestureMapper.onPinchZoom, defaultConfig, setCooldown,
      cooldownSet]

/-- C8 (amended).  Every pinch-zoom event with scale above 1.2 triggers
the `surprised` expression (and refreshes a 1000 ms cooldown entry under
the key `pinch`); a scale below 0.8 reverts the expression to default
without touching the registry; scales in the dead zone `[0.8, 1.2]`
produce no reaction at all. -/
theorem pinch_zoom_thresholds (s : MapperState) (now : ℚ) (ready : Bool)
    (scale : ℚ) (hen : s.config.enabled = true)
    (hger : s.config.gestureReactionsEnabled = true)
    (hlst : s.isListening = true) (hrdy : ready = true) :
    (scale > 1.2 →
      (GestureMapper.onPinchZoom s now ready scale).2 =
        [Action.setExpression ("surprised")] ∧
      cooldownGet
        (GestureMapper.onPinchZoom s now ready scale).1.gestureCooldown
        ("pinch") = some (now + 1000)) ∧
    (scale < 0.8 →
      (GestureMapper.onPinchZoom s now ready scale).2 =
        [Action.setExpression ("default")] ∧
      (GestureMapper.onPinchZoom s now ready scale).1 = s) ∧
    (0.8 ≤ scale → scale ≤ 1.2 →
      GestureMapper.onPinchZoom s now ready scale = (s, [])) := by
  simp only [GestureMapper.onPinchZoom, hen, hger, hlst, hrdy]
  refine ⟨?_, ?_, ?_⟩
  · intro hs
    rw [if_neg (by simp), if_neg (by simp), if_neg (by simp), if_pos hs]
    simp [setCooldown, cooldownSet, cooldownGet]
  · intro hs
    rw [if_neg (by simp), if_neg (by simp), if_neg (by simp),
      if_neg (by exact not_lt.mpr (le_trans hs.le (by norm_num))),
      if_pos hs]
    simp
  · intro hlo hhi
    rw [if_neg (by simp), if_neg (by simp), if_neg (by simp),
      if_neg (by exact not_lt.mpr hhi), if_neg (by exact not_lt.mpr hlo)]

/-- Concrete check for `pinch_zoom_thresholds` at scale 1.3. -/
theorem pinch_zoom_thresholds_check :
    (GestureMapper.onPinchZoom initialMapperState 5 true 1.3).2 =
      [Action.setExpression ("surprised")] ∧
    cooldownGet (GestureMapper.onPinchZoom initialMapperState 5 true
        1.3).1.gestureCooldown ("pinch") = some 1005 := by
  have h := (pinch_zoom_thresholds initialMapperState 5 true 1.3 rfl rfl
    rfl rfl).1 (by norm_num)
  refine ⟨h.1, ?_⟩
  rw [h.2]
  norm_num

/-- The documented clamps of the expression vector: eye opennesses in
[0, 1], brow offsets and smile in [-1, 1], head angles in [-30, 30],
mouth openness in [0, 1]. -/
def exprInRange (e : FaceExpressionData) : Prop :=
  0 ≤ e.leftEyeOpenness ∧ e.leftEyeOpenness ≤ 1 ∧
  0 ≤ e.rightEyeOpenness ∧ e.rightEyeOpenness ≤ 1 ∧
  -1 ≤ e.leftBrowY ∧ e.leftBrowY ≤ 1 ∧
  -1 ≤ e.rightBrowY ∧ e.rightBrowY ≤ 1 ∧
  -30 ≤ e.headAngleX ∧ e.headAngleX ≤ 30 ∧
  -30 ≤ e.headAngleY ∧ e.headAngleY ≤ 30 ∧
  -30 ≤ e.headAngleZ ∧ e.headAngleZ ≤ 30 ∧
  0 ≤ e.mouthOpenness ∧ e.mouthOpenness ≤ 1 ∧
  -1 ≤ e.mouthSmile ∧ e.mouthSmile ≤ 1

/-- A clamp `max lo (min hi x)` lands in `[lo, hi]`. -/
lemma clamp_mem (lo hi x : ℚ) (h : lo ≤ hi) :
    lo ≤ max lo (min hi x) ∧ max lo (min hi x) ≤ hi :=
  ⟨le_max_left _ _, max_le h (min_le_left _ _)⟩

/-- Source `calculateEyeOpenness` lands in `[0, 1]`. -/
lemma calculateEyeOpenness_mem (upper lower outer inner : Point3) :
    0 ≤ calculateEyeOpenness upper lower outer inner ∧
    calculateEyeOpenness upper lower outer inner ≤ 1 := by
  unfold calculateEyeOpenness
  by_cases hw : |outer.x - inner.x| = 0
  · rw [if_pos hw]
    norm_num
  · rw [if_neg hw]
    exact clamp_mem 0 1 _ (by norm_num)

/-- The width-normalized mouth opening ratio is nonnegative. -/
lemma normalizedOpenness_nonneg (lm : FaceLandmarks) :
    0 ≤ normalizedOpenness lm := by
  unfold normalizedOpenness
  by_cases hw : mouthWidth lm > 0
  · rw [if_pos hw]
    exact div_nonneg (abs_nonneg _) hw.le
  · rw [if_neg hw]
    exact abs_nonneg _

/-- The raw expression vector extracted from any face observation obeys
the documented clamps. -/
lemma extractExpressionData_mem (lm : FaceLandmarks) :
    exprInRange (extractExpressionData lm) := by
  have he1 := calculateEyeOpenness_mem lm.leftEyeUpper lm.leftEyeLower
    lm.leftEyeOuter lm.leftEyeInner
  have he2 := calculateEyeOpenness_mem lm.rightEyeUpper lm.rightEyeLower
    lm.rightEyeOuter lm.rightEyeInner
  have hmo : 0 ≤ (calculateMouthShape lm).1 ∧
      (calculateMouthShape lm).1 ≤ 1 := by
    unfold calculateMouthShape
    refine ⟨le_min (by norm_num) ?_, min_le_left _ _⟩
    have := normalizedOpenness_nonneg lm
    positivity
  unfold exprInRange extractExpressionData
  unfold calculateBrowPosition calculateHeadPose calculateMouthShape
  unfold calculateMouthShape at hmo
  refine ⟨he1.1, he1.2, he2.1, he2.2, ?_⟩
  simp only []
  exact ⟨(clamp_mem (-1) 1 _ (by norm_num)).1,
    (clamp_mem (-1) 1 _ (by norm_num)).2,
    (clamp_mem (-1) 1 _ (by norm_num)).1,
    (clamp_mem (-1) 1 _ (by norm_num)).2,
    (clamp_mem (-30) 30 _ (by norm_num)).1,
    (clamp_mem (-30) 30 _ (by norm_num)).2,
    (clamp_mem (-30) 30 _ (by norm_num)).1,
    (clamp_mem (-30) 30 _ (by norm_num)).2,
    (clamp_mem (-30) 30 _ (by norm_num)).1,
    (clamp_mem (-30) 30 _ (by norm_num)).2,
    hmo.1, hmo.2,
    (clamp_mem (-1) 1 _ (by norm_num)).1,
    (clamp_mem (-1) 1 _ (by norm_num)).2⟩

/-- One lerp step with factor 0.4 stays inside any interval containing
both endpoints. -/
lemma lerp_mem (lo hi a b : ℚ) (ha1 : lo ≤ a) (ha2 : a ≤ hi)
    (hb1 : lo ≤ b) (hb2 : b ≤ hi) :
    lo ≤ lerp a b expressionSmoothing ∧
    lerp a b expressionSmoothing ≤ hi := by
  unfold lerp expressionSmoothing
  constructor <;> nlinarith

/-- Smoothing preserves the documented clamps. -/
lemma smoothExpression_mem (prev cur : FaceExpressionData)
    (hp : exprInRange prev) (hc : exprInRange cur) :
    exprInRange (smoothExpression prev cur) := by
  obtain ⟨p1, p2, p3, p4, p5, p6, p7, p8, p9, p10, p11, p12, p13, p14,
    p15, p16, p17, p18⟩ := hp
  obtain ⟨c1, c2, c3, c4, c5, c6, c7, c8, c9, c10, c11, c12, c13, c14,
    c15, c16, c17, c18⟩ := hc
  unfold exprInRange smoothExpression
  refine ⟨(lerp_mem _ _ _ _ p1 p2 c1 c2).1, (lerp_mem _ _ _ _ p1 p2 c1 c2).2,
    (lerp_mem _ _ _ _ p3 p4 c3 c4).1, (lerp_mem _ _ _ _ p3 p4 c3 c4).2,
    (lerp_mem _ _ _ _ p5 p6 c5 c6).1, (lerp_mem _ _ _ _ p5 p6 c5 c6).2,
    (lerp_mem _ _ _ _ p7 p8 c7 c8).1, (lerp_mem _ _ _ _ p7 p8 c7 c8).2,
    (lerp_mem _ _ _ _ p9 p10 c9 c10).1, (lerp_mem _ _ _ _ p9 p10 c9 c10).2,
    (lerp_mem _ _ _ _ p11 p12 c11 c12).1,
    (lerp_mem _ _ _ _ p11 p12 c11 c12).2,
    (lerp_mem _ _ _ _ p13 p14 c13 c14).1,
    (lerp_mem _ _ _ _ p13 p14 c13 c14).2,
    (lerp_mem _ _ _ _ p15 p16 c15 c16).1,
    (lerp_mem _ _ _ _ p15 p16 c15 c16).2,
    (lerp_mem _ _ _ _ p17 p18 c17 c18).1,
    (lerp_mem _ _ _ _ p17 p18 c17 c18).2⟩

/-- The face-lost default expression obeys the documented clamps. -/
lemma defaultExpression_mem : exprInRange defaultExpression := by
  unfold exprInRange defaultExpression
  norm_num

/-- C5.  Along any stream of face observations, both the raw and the
emitted (smoothed) expression vectors keep every field inside its
documented clamp, whatever the input geometry; and on a degenerate
zero-width mouth there is no division: the unnormalized lip-gap height
is substituted as the openness ratio. -/
theorem expression_clamps (f : ℕ → FaceLandmarks) (n : ℕ) :
    exprInRange (extractExpressionData (f n)) ∧
    exprInRange (smoothedExprAt f n) ∧
    (mouthWidth (f n) = 0 →
      normalizedOpenness (f n) = mouthHeight (f n) ∧
      (calculateMouthShape (f n)).1 = min 1 (mouthHeight (f n) * 3)) := by
  refine ⟨extractExpressionData_mem (f n), ?_, ?_⟩
  · induction n with
    | zero => exact defaultExpression_mem
    | succ m ih =>
      exact smoothExpression_mem _ _ ih (extractExpressionData_mem (f m))
  · intro hw
    have hno : normalizedOpenness (f n) = mouthHeight (f n) := by
      unfold normalizedOpenness
      rw [if_neg (by rw [hw]; exact lt_irrefl 0)]
    exact ⟨hno, by unfold calculateMouthShape; rw [hno]⟩

/-- A face observation with a degenerate zero-width mouth: both mouth
corners at the same x coordinate. -/
def degenerateFace : FaceLandmarks :=
  { upperLipTop := zeroPoint
    lowerLipBottom := { x := 0, y := 1, z := 0 }
    leftMouthCorner := zeroPoint
    rightMouthCorner := zeroPoint
    leftEyeUpper := zeroPoint
    leftEyeLower := zeroPoint
    leftEyeOuter := zeroPoint
    leftEyeInner := zeroPoint
    rightEyeUpper := zeroPoint
    rightEyeLower := zeroPoint
    rightEyeOuter := zeroPoint
    rightEyeInner := zeroPoint
    leftBrowCenter := zeroPoint
    rightBrowCenter := zeroPoint
    noseTip := zeroPoint
    foreheadCenter := zeroPoint
    chinCenter := zeroPoint
    leftCheek := zeroPoint
    rightCheek := zeroPoint
    eyeTiltDeg := 0 }

/-- Concrete check for `expression_clamps` on the zero-width mouth: the
openness ratio falls back to the raw lip-gap height, here 1. -/
theorem expression_clamps_check :
    mouthWidth degenerateFace = 0 ∧
    normalizedOpenness degenerateFace = mouthHeight degenerateFace ∧
    exprInRange (extractExpressionData degenerateFace) := by
  have hw : mouthWidth degenerateFace = 0 := by
    norm_num [mouthWidth, degenerateFace, zeroPoint]
  have h := expression_clamps (fun _ => degenerateFace) 0
  exact ⟨hw, (h.2.2 hw).1, h.1⟩

/-- One step of the legacy mouth-openness pass: the smoothed value, the
two consecutive-frame counters and the speaking flag, as functions of
the pre-state and the post-smoothing openness of the frame. -/
lemma detectMouthOpenness_step (st : SpeakingState) (now : ℚ)
    (lm : FaceLandmarks) :
    ((detectMouthOpenness st now lm).1).smoothedOpenness =
      smoothNext st lm ∧
    ((detectMouthOpenness st now lm).1).consecutiveOpenFrames =
      (if smoothNext st lm > mouthOpenThreshold then
        st.consecutiveOpenFrames + 1 else 0) ∧
    ((detectMouthOpenness st now lm).1).consecutiveClosedFrames =
      (if smoothNext st lm > mouthOpenThreshold then 0
       else st.consecutiveClosedFrames + 1) ∧
    ((detectMouthOpenness st now lm).1).isSpeaking =
      (if smoothNext st lm > mouthOpenThreshold then
        (st.isSpeaking ||
          decide (speakingFramesThreshold ≤ st.consecutiveOpenFrames + 1))
       else
        (st.isSpeaking &&
          ! decide (speakingFramesThreshold * 2 ≤
            st.consecutiveClosedFrames + 1))) := by
  simp only [detectMouthOpenness]
  by_cases hm : smoothNext st lm > mouthOpenThreshold
  · rw [if_pos hm]
    cases hI : st.isSpeaking
    · by_cases hc : speakingFramesThreshold ≤ st.consecutiveOpenFrames + 1
      · simp [hm, hI, hc]
      · simp [hm, hI, hc]
    · simp [hm, hI]
  · rw [if_neg hm]
    cases hI : st.isSpeaking
    · simp [hm, hI]
    · by_cases hc : speakingFramesThreshold * 2 ≤
          st.consecutiveClosedFrames + 1
      · simp [hm, hI, hc]
      · simp [hm, hI, hc]

/-- Open-frame counter along the stream: incremented on an open frame,
reset to zero otherwise. -/
lemma consOpen_at (f : ℕ → FaceLandmarks) (nows : ℕ → ℚ) (n : ℕ) :
    (speakStateAt f nows (n + 1)).consecutiveOpenFrames =
      if openAt f nows n then
        (speakStateAt f nows n).consecutiveOpenFrames + 1
      else 0 :=
  (detectMouthOpenness_step (speakStateAt f nows n) (nows n) (f n)).2.1

/-- Closed-frame counter along the stream: incremented on a closed
frame, reset to zero otherwise. -/
lemma consClosed_at (f : ℕ → FaceLandmarks) (nows : ℕ → ℚ) (n : ℕ) :
    (speakStateAt f nows (n + 1)).consecutiveClosedFrames =
      if openAt f nows n then 0
      else (speakStateAt f nows n).consecutiveClosedFrames + 1 :=
  (detectMouthOpenness_step (speakStateAt f nows n) (nows n) (f n)).2.2.1

/-- Speaking flag along the stream. -/
lemma isSpeaking_at (f : ℕ → FaceLandmarks) (nows : ℕ → ℚ) (n : ℕ) :
    (speakStateAt f nows (n + 1)).isSpeaking =
      (if openAt f nows n then
        ((speakStateAt f nows n).isSpeaking ||
          decide (speakingFramesThreshold ≤
            (speakStateAt f nows n).consecutiveOpenFrames + 1))
       else
        ((speakStateAt f nows n).isSpeaking &&
          ! decide (speakingFramesThreshold * 2 ≤
            (speakStateAt f nows n).consecutiveClosedFrames + 1))) :=
  (detectMouthOpenness_step (speakStateAt f nows n) (nows n) (f n)).2.2.2

/-- Soundness of the open-frame counter: a count of at least `k` after
frame `n` means the last `k` frames were all open. -/
lemma consOpen_sound (f : ℕ → FaceLandmarks) (nows : ℕ → ℚ) :
    ∀ n k : ℕ, k ≤ (speakStateAt f nows (n + 1)).consecutiveOpenFrames →
      k ≤ n + 1 ∧ ∀ j, j < k → openAt f nows (n - j) := by
  intro n
  induction n with
  | zero =>
    intro k hk
    rw [consOpen_at] at hk
    by_cases h0 : openAt f nows 0
    · rw [if_pos h0] at hk
      have hz : (speakStateAt f nows 0).consecutiveOpenFrames = 0 := rfl
      rw [hz] at hk
      refine ⟨by omega, ?_⟩
      intro j hj
      have hj0 : j = 0 := by omega
      subst hj0
      simpa using h0
    · rw [if_neg h0] at hk
      exact ⟨by omega, fun j hj => absurd hj (by omega)⟩
  | succ m ih =>
    intro k hk
    rw [consOpen_at] at hk
    by_cases hO : openAt f nows (m + 1)
    · rw [if_pos hO] at hk
      match k with
      | 0 => exact ⟨by omega, fun j hj => absurd hj (by omega)⟩
      | Nat.succ k' =>
        have hk' : k' ≤ (speakStateAt f nows (m + 1)).consecutiveOpenFrames :=
          by omega
        obtain ⟨hb, hall⟩ := ih k' hk'
        refine ⟨by omega, ?_⟩
        intro j hj
        match j with
        | 0 => simpa using hO
        | Nat.succ j' =>
          have hj' : j' < k' := by omega
          have := hall j' hj'
          simpa [Nat.succ_sub_succ] using this
    · rw [if_neg hO] at hk
      exact ⟨by omega, fun j hj => absurd hj (by omega)⟩

/-- Soundness of the closed-frame counter: a count of at least `k` after
frame `n` means the last `k` frames were all closed. -/
lemma consClosed_sound (f : ℕ → FaceLandmarks) (nows : ℕ → ℚ) :
    ∀ n k : ℕ, k ≤ (speakStateAt f nows (n + 1)).consecutiveClosedFrames →
      k ≤ n + 1 ∧ ∀ j, j < k → ¬ openAt f nows (n - j) := by
  intro n
  induction n with
  | zero =>
    intro k hk
    rw [consClosed_at] at hk
    by_cases h0 : openAt f nows 0
    · rw [if_pos h0] at hk
      exact ⟨by omega, fun j hj => absurd hj (by omega)⟩
    · rw [if_neg h0] at hk
      have hz : (speakStateAt f nows 0).consecutiveClosedFrames = 0 := rfl
      rw [hz] at hk
      refine ⟨by omega, ?_⟩
      intro j hj
      have hj0 : j = 0 := by omega
      subst hj0
      simpa using h0
  | succ m ih =>
    intro k hk
    rw [consClosed_at] at hk
    by_cases hO : openAt f nows (m + 1)
    · rw [if_pos hO] at hk
      exact ⟨by omega, fun j hj => absurd hj (by omega)⟩
    · rw [if_neg hO] at hk
      match k with
      | 0 => exact ⟨by omega, fun j hj => absurd hj (by omega)⟩
      | Nat.succ k' =>
        have hk' : k' ≤
            (speakStateAt f nows (m + 1)).consecutiveClosedFrames := by omega
        obtain ⟨hb, hall⟩ := ih k' hk'
        refine ⟨by omega, ?_⟩
        intro j hj
        match j with
        | 0 => simpa using hO
        | Nat.succ j' =>
          have hj' : j' < k' := by omega
          have := hall j' hj'
          simpa [Nat.succ_sub_succ] using this

/-- C2.  The speaking hysteresis of the legacy mouth-openness pass:
along any stream of face frames, (a) after every processed frame at
least one of the two consecutive-frame counters is zero; (b) `isSpeaking`
flips false-to-true only on a frame whose last three frames (itself
included) all had smoothed openness above the 0.02 threshold; (c) it
flips true-to-false only on a frame whose last six frames all had
smoothed openness not above the threshold (the binary open test of the source
is `smoothed > 0.02`, so a closed frame is one at or below the
threshold); (d) an open frame resets the closed counter and a closed
frame resets the open counter. -/
theorem speaking_hysteresis (f : ℕ → FaceLandmarks) (nows : ℕ → ℚ)
    (n : ℕ) :
    ((speakStateAt f nows n).consecutiveOpenFrames = 0 ∨
     (speakStateAt f nows n).consecutiveClosedFrames = 0) ∧
    ((speakStateAt f nows n).isSpeaking = false ∧
     (speakStateAt f nows (n + 1)).isSpeaking = true →
       2 ≤ n ∧ ∀ j, j ≤ 2 → openAt f nows (n - j)) ∧
    ((speakStateAt f nows n).isSpeaking = true ∧
     (speakStateAt f nows (n + 1)).isSpeaking = false →
       5 ≤ n ∧ ∀ j, j ≤ 5 → ¬ openAt f nows (n - j)) ∧
    (openAt f nows n →
      (speakStateAt f nows (n + 1)).consecutiveClosedFrames = 0) ∧
    (¬ openAt f nows n →
      (speakStateAt f nows (n + 1)).consecutiveOpenFrames = 0) := by
  refine ⟨?_, ?_, ?_, ?_, ?_⟩
  · match n with
    | 0 => exact Or.inl rfl
    | Nat.succ m =>
      by_cases hO : openAt f nows m
      · exact Or.inr (by rw [consClosed_at, if_pos hO])
      · exact Or.inl (by rw [consOpen_at, if_neg hO])
  · rintro ⟨hoff, hon⟩
    rw [isSpeaking_at] at hon
    by_cases hO : openAt f nows n
    · rw [if_pos hO] at hon
      rw [hoff] at hon
      simp only [Bool.false_or, decide_eq_true_eq] at hon
      have hc3 : 3 ≤ (speakStateAt f nows (n + 1)).consecutiveOpenFrames := by
        rw [consOpen_at, if_pos hO]
        simpa [speakingFramesThreshold] using hon
      obtain ⟨hb, hall⟩ := consOpen_sound f nows n 3 hc3
      exact ⟨by omega, fun j hj => hall j (by omega)⟩
    · rw [if_neg hO] at hon
      rw [hoff] at hon
      simp at hon
  · rintro ⟨hon, hoff⟩
    rw [isSpeaking_at] at hoff
    by_cases hO : openAt f nows n
    · rw [if_pos hO] at hoff
      rw [hon] at hoff
      simp at hoff
    · rw [if_neg hO] at hoff
      rw [hon] at hoff
      simp only [Bool.true_and, Bool.not_eq_false', decide_eq_true_eq]
        at hoff
      have hc6 : 6 ≤
          (speakStateAt f nows (n + 1)).consecutiveClosedFrames := by
        rw [consClosed_at, if_neg hO]
        simpa [speakingFramesThreshold] using hoff
      obtain ⟨hb, hall⟩ := consClosed_sound f nows n 6 hc6
      exact ⟨by omega, fun j hj => hall j (by omega)⟩
  · intro hO
    rw [consClosed_at, if_pos hO]
  · intro hO
    rw [consOpen_at, if_neg hO]

/-- A face observation with a wide-open mouth: opening ratio 1. -/
def openFace : FaceLandmarks :=
  { upperLipTop := zeroPoint
    lowerLipBottom := { x := 0, y := 1, z := 0 }
    leftMouthCorner := zeroPoint
    rightMouthCorner := { x := 1, y := 0, z := 0 }
    leftEyeUpper := zeroPoint
    leftEyeLower := zeroPoint
    leftEyeOuter := zeroPoint
    leftEyeInner := zeroPoint
    rightEyeUpper := zeroPoint
    rightEyeLower := zeroPoint
    rightEyeOuter := zeroPoint
    rightEyeInner := zeroPoint
    leftBrowCenter := zeroPoint
    rightBrowCenter := zeroPoint
    noseTip := zeroPoint
    foreheadCenter := zeroPoint
    chinCenter := zeroPoint
    leftCheek := zeroPoint
    rightCheek := zeroPoint
    eyeTiltDeg := 0 }

/-- A stream showing the open mouth on every frame. -/
def openFaceStream : ℕ → FaceLandmarks := fun _ => openFace

/-- Frame timestamps for the concrete speech scenario. -/
def frameTimes : ℕ → ℚ := fun n => n

/-- Speaking state after one open frame. -/
def speakState1 : SpeakingState :=
  { isSpeaking := false
    mouthOpenness := 0.3
    speakingStartTime := none
    lastMouthOpenness := 0.3
    smoothedOpenness := 0.3
    consecutiveOpenFrames := 1
    consecutiveClosedFrames := 0 }

/-- Speaking state after two open frames. -/
def speakState2 : SpeakingState :=
  { isSpeaking := false
    mouthOpenness := 0.51
    speakingStartTime := none
    lastMouthOpenness := 0.51
    smoothedOpenness := 0.51
    consecutiveOpenFrames := 2
    consecutiveClosedFrames := 0 }

/-- Speaking state after three open frames: speech begins. -/
def speakState3 : SpeakingState :=
  { isSpeaking := true
    mouthOpenness := 0.657
    speakingStartTime := some 2
    lastMouthOpenness := 0.657
    smoothedOpenness := 0.657
    consecutiveOpenFrames := 3
    consecutiveClosedFrames := 0 }

/-- Evaluation of three consecutive open frames from the default state. -/
lemma speakStateAt_openFace_eval :
    speakStateAt openFaceStream frameTimes 2 = speakState2 ∧
    speakStateAt openFaceStream frameTimes 3 = speakState3 := by
  have h1 : detectMouthOpenness initialSpeakingState 0 openFace =
      (speakState1, [FaceEvent.mouthOpennessChange 0.3]) := by
    norm_num [detectMouthOpenness, smoothNext, normalizedOpenness,
      mouthHeight, mouthWidth, initialSpeakingState, speakState1,
      mouthOpenThreshold, smoothingFactor, speakingFramesThreshold,
      openFace, zeroPoint]
  have h2 : detectMouthOpenness speakState1 1 openFace =
      (speakState2, [FaceEvent.mouthOpennessChange 0.51]) := by
    norm_num [detectMouthOpenness, smoothNext, normalizedOpenness,
      mouthHeight, mouthWidth, speakState1, speakState2,
      mouthOpenThreshold, smoothingFactor, speakingFramesThreshold,
      openFace, zeroPoint]
  have h3 : detectMouthOpenness speakState2 2 openFace =
      (speakState3, [FaceEvent.mouthOpennessChange 0.657,
        FaceEvent.speakingStart]) := by
    norm_num [detectMouthOpenness, smoothNext, normalizedOpenness,
      mouthHeight, mouthWidth, speakState2, speakState3,
      mouthOpenThreshold, smoothingFactor, speakingFramesThreshold,
      openFace, zeroPoint]
  have e2 : speakStateAt openFaceStream frameTimes 2 = speakState2 := by
    show (detectMouthOpenness
      (detectMouthOpenness (speakStateAt openFaceStream frameTimes 0)
        (frameTimes 0) (openFaceStream 0)).1
      (frameTimes 1) (openFaceStream 1)).1 = speakState2
    simp only [speakStateAt, openFaceStream, frameTimes]
    norm_num [h1, h2]
  refine ⟨e2, ?_⟩
  show (detectMouthOpenness (speakStateAt openFaceStream frameTimes 2)
    (frameTimes 2) (openFaceStream 2)).1 = speakState3
  rw [e2]
  simp only [openFaceStream, frameTimes]
  norm_num [h3]

/-- Concrete check for `speaking_hysteresis`: with the mouth open on
every frame, speaking starts on the third frame, and the theorem
certifies the three preceding frames were all above threshold. -/
theorem speaking_hysteresis_check :
    (speakStateAt openFaceStream frameTimes 2).isSpeaking = false ∧
    (speakStateAt openFaceStream frameTimes 3).isSpeaking = true ∧
    (2 ≤ 2 ∧ ∀ j, j ≤ 2 → openAt openFaceStream frameTimes (2 - j)) := by
  have hev := speakStateAt_openFace_eval
  have hoff : (speakStateAt openFaceStream frameTimes 2).isSpeaking =
      false := by rw [hev.1]; rfl
  have hon : (speakStateAt openFaceStream frameTimes 3).isSpeaking =
      true := by rw [hev.2]; rfl
  exact ⟨hoff, hon,
    (speaking_hysteresis openFaceStream frameTimes 2).2.1 ⟨hoff, hon⟩⟩

end WebJarvis
